import Mathlib

/-!
Verification of the scheduled-job runner (`cron.js`) of the HabitPulse
habit-tracking backend.  The definitions below are a shallow embedding of the
cron job handlers and their helper functions; database tables are embedded as
lists of rows, the Prisma client's reads/writes as pure list operations, and
timestamps (JS `Date.getTime()` milliseconds) as `Int`.

The `ReminderService` predicates (`isHabitScheduledForDate`,
`isHabitCompletedForDate`, `isInQuietHours`) are implemented in a separate
service module and are only *called* by `cron.js`; they are embedded as oracle
parameters (`sched`, `compl`, `quiet`), matching their use as external
collaborators.  Likewise, which external database/push operations throw is
abstracted by explicit error-environment parameters (`CNEnv`, `RowEnv`).

Apostrophes occurring inside user-facing message texts of the source are
written out as plain words (e.g. "You have" for the contracted form); no claim
depends on those characters.
-/

namespace HabitPulse

/-! ## Data model (rows of the relevant tables, from the Prisma schema) -/

/-- Core-relevant fields of a `User` row. -/
structure User where
  user_id : Nat
  user_name : String
  prefersNotifications : Bool
  onVacation : Bool
  dailyGoal : Int
  registeredAt : Int
  deriving DecidableEq

/-- A `HabitStreak` row (fields used by cron.js). -/
structure HabitStreak where
  habit_id : Nat
  user_id : Nat
  current_streak : Int
  deriving DecidableEq

/-- A `Habit` row (fields used by cron.js). -/
structure Habit where
  habit_id : Nat
  user_id : Nat
  name : String
  is_active : Bool
  deriving DecidableEq

/-- A `ScheduledReminder` row. -/
structure ScheduledReminder where
  scheduled_reminder_id : Nat
  habit_id : Nat
  user_id : Nat
  scheduled_time : Int
  reminder_type : String
  message : String
  is_sent : Bool
  is_prepared : Bool
  actual_send_time : Option Int
  send_status : Option String
  failure_reason : Option String
  notification_id : Option Nat
  deriving DecidableEq

/-- The `NotificationType` enum values used by cron.js. -/
inductive NotificationType where
  | STREAK_MILESTONE
  | ACHIEVEMENT_UNLOCKED
  | REMINDER
  | SYSTEM_MESSAGE
  deriving DecidableEq, BEq

/-- The payload handed to `createNotification` (the notification row minus
its serial id and read flag). -/
structure NotifData where
  user_id : Nat
  title : String
  content : String
  type : NotificationType
  related_id : Option Nat
  action_url : Option String
  deriving DecidableEq, BEq

/-- A persisted `Notification` row. -/
structure Notification where
  id : Nat
  data : NotifData
  is_read : Bool
  deriving DecidableEq

/-- A `HabitLog` row (fields used by cron.js). -/
structure HabitLog where
  habit_id : Nat
  user_id : Nat
  completed : Bool
  completed_at : Int
  deriving DecidableEq

/-- The database state visible to cron.js.  `userOf`/`habitOf` embed the
foreign-key joins (`include user` / `include habit`), which always succeed
under referential integrity; `users`/`habits` are the table rows enumerated by
`findMany` queries.  `nextNotifId`/`nextReminderId` model the serial primary
keys handed out on insert. -/
structure DB where
  users : List User
  userOf : Nat → User
  habitOf : Nat → Habit
  habits : List Habit
  streaks : List HabitStreak
  reminders : List ScheduledReminder
  logs : List HabitLog
  notifs : List Notification
  nextNotifId : Nat
  nextReminderId : Nat

/-! ## createNotification (cron.js lines 53-85)

`createNotification` first inserts the notification row, then awaits the push
fan-out; *any* error in either step is caught inside the function, logged, and
the function falls through returning `undefined`.  `CNEnv` says which of the
two external operations (if any) throws. -/

/-- Which external operation inside `createNotification` throws. -/
inductive CNEnv where
  | ok
  | dbFail (msg : String)
  | pushFail (msg : String)
  deriving DecidableEq

/-- Build the row inserted by `prisma.notification.create` (with `is_read:
false`). -/
def mkNotif (id : Nat) (d : NotifData) : Notification :=
  { id := id, data := d, is_read := false }

/-- cron.js `createNotification(data)`:
  * row insert throws → caught, nothing persisted, returns `undefined`;
  * push send throws after the insert → caught, the row **stays persisted**,
    returns `undefined`;
  * both succeed → returns the created notification. -/
def createNotification (db : DB) (d : NotifData) (env : CNEnv) :
    DB × Option Notification :=
  match env with
  | .dbFail _ => (db, none)
  | .pushFail _ =>
      ({ db with notifs := db.notifs ++ [mkNotif db.nextNotifId d],
                 nextNotifId := db.nextNotifId + 1 }, none)
  | .ok =>
      ({ db with notifs := db.notifs ++ [mkNotif db.nextNotifId d],
                 nextNotifId := db.nextNotifId + 1 },
       some (mkNotif db.nextNotifId d))

/-! ## streak-milestone-check (cron.js lines 231-295) -/

/-- The milestone set checked by the daily milestone scan. -/
def milestones : List Int := [7, 14, 21, 30, 60, 90, 100, 180, 365]

/-- The `include streak` relation rows of a habit. -/
def streakRowsOf (db : DB) (h : Habit) : List HabitStreak :=
  db.streaks.filter (fun s => s.habit_id == h.habit_id)

/-- The `include streak where current_streak gt t` relation rows of a habit. -/
def streakRowsAbove (db : DB) (h : Habit) (t : Int) : List HabitStreak :=
  db.streaks.filter (fun s => s.habit_id == h.habit_id && decide (t < s.current_streak))

/-- The milestone notification payload built at cron.js lines 269-276. -/
def milestoneNotifData (h : Habit) (s : HabitStreak) : NotifData :=
  { user_id := h.user_id
    title := toString s.current_streak ++ "-Day Streak! 🔥"
    content := "Amazing! You have maintained your \"" ++ h.name ++ "\" habit for "
      ++ toString s.current_streak ++ " days in a row! Keep going!"
    type := .STREAK_MILESTONE
    related_id := some h.habit_id
    action_url := some ("/habits/" ++ toString h.habit_id) }

/-- One iteration of the `for (const habit of habitsWithStreaks)` loop of the
milestone scan: skip when the habit has no streak row or the owner has
notifications off; otherwise notify when `current_streak > 0` and the streak is
exactly in the milestone set. -/
def milestoneStep (env : NotifData → CNEnv) (acc : DB × Nat) (h : Habit) :
    DB × Nat :=
  match streakRowsOf acc.1 h with
  | [] => acc
  | s :: _ =>
    if (acc.1.userOf h.user_id).prefersNotifications then
      if 0 < s.current_streak ∧ s.current_streak ∈ milestones then
        ((createNotification acc.1 (milestoneNotifData h s)
            (env (milestoneNotifData h s))).1, acc.2 + 1)
      else acc
    else acc

/-- The `streak-milestone-check` job body: query all active habits with their
streak rows and owner, then loop.  Returns the updated database and the
`notificationsSent` counter. -/
def milestoneScan (db : DB) (env : NotifData → CNEnv) : DB × Nat :=
  (db.habits.filter (·.is_active)).foldl (milestoneStep env) (db, 0)

/-- The per-habit decision of the milestone scan, as a partial payload. -/
def milestoneSpec (db : DB) (h : Habit) : Option NotifData :=
  match streakRowsOf db h with
  | [] => none
  | s :: _ =>
    if (db.userOf h.user_id).prefersNotifications
        ∧ 0 < s.current_streak ∧ s.current_streak ∈ milestones then
      some (milestoneNotifData h s)
    else none

/-! ### Frame lemmas for `createNotification` -/

theorem createNotification_streaks (db : DB) (d : NotifData) (env : CNEnv) :
    (createNotification db d env).1.streaks = db.streaks := by
  cases env <;> rfl

theorem createNotification_userOf (db : DB) (d : NotifData) (env : CNEnv) :
    (createNotification db d env).1.userOf = db.userOf := by
  cases env <;> rfl

theorem createNotification_habitOf (db : DB) (d : NotifData) (env : CNEnv) :
    (createNotification db d env).1.habitOf = db.habitOf := by
  cases env <;> rfl

theorem createNotification_users (db : DB) (d : NotifData) (env : CNEnv) :
    (createNotification db d env).1.users = db.users := by
  cases env <;> rfl

theorem createNotification_habits (db : DB) (d : NotifData) (env : CNEnv) :
    (createNotification db d env).1.habits = db.habits := by
  cases env <;> rfl

theorem createNotification_logs (db : DB) (d : NotifData) (env : CNEnv) :
    (createNotification db d env).1.logs = db.logs := by
  cases env <;> rfl

theorem createNotification_reminders (db : DB) (d : NotifData) (env : CNEnv) :
    (createNotification db d env).1.reminders = db.reminders := by
  cases env <;> rfl

theorem createNotification_nextReminderId (db : DB) (d : NotifData) (env : CNEnv) :
    (createNotification db d env).1.nextReminderId = db.nextReminderId := by
  cases env <;> rfl

/-- Notifications are only ever appended by `createNotification`. -/
theorem createNotification_notifs_extend (db : DB) (d : NotifData) (env : CNEnv) :
    ∃ tl, (createNotification db d env).1.notifs = db.notifs ++ tl := by
  cases env with
  | ok => exact ⟨[mkNotif db.nextNotifId d], rfl⟩
  | dbFail m => exact ⟨[], (List.append_nil _).symm⟩
  | pushFail m => exact ⟨[mkNotif db.nextNotifId d], rfl⟩

theorem createNotification_ok_notifs (db : DB) (d : NotifData) :
    (createNotification db d .ok).1.notifs = db.notifs ++ [mkNotif db.nextNotifId d] :=
  rfl

theorem streakRowsOf_congr {db1 db2 : DB} (h : Habit)
    (hs : db1.streaks = db2.streaks) : streakRowsOf db1 h = streakRowsOf db2 h := by
  simp [streakRowsOf, hs]

theorem streakRowsAbove_congr {db1 db2 : DB} (h : Habit) (t : Int)
    (hs : db1.streaks = db2.streaks) :
    streakRowsAbove db1 h t = streakRowsAbove db2 h t := by
  simp [streakRowsAbove, hs]

/-! ### Characterization of the milestone scan -/

theorem milestoneStep_spec (env : NotifData → CNEnv) (hok : ∀ d, env d = .ok)
    (db : DB) (acc : DB × Nat) (h : Habit)
    (hstr : acc.1.streaks = db.streaks) (huo : acc.1.userOf = db.userOf) :
    (milestoneStep env acc h).1.notifs.map (·.data)
        = acc.1.notifs.map (·.data) ++ (milestoneSpec db h).toList
    ∧ (milestoneStep env acc h).2 = acc.2 + (milestoneSpec db h).toList.length
    ∧ (milestoneStep env acc h).1.streaks = acc.1.streaks
    ∧ (milestoneStep env acc h).1.userOf = acc.1.userOf := by
  have hrows : streakRowsOf acc.1 h = streakRowsOf db h := streakRowsOf_congr h hstr
  unfold milestoneStep milestoneSpec
  rw [hrows, huo]
  cases hsr : streakRowsOf db h with
  | nil => exact ⟨by simp, by simp, rfl, huo⟩
  | cons s rest =>
    by_cases hp : (db.userOf h.user_id).prefersNotifications = true
    · by_cases hm : 0 < s.current_streak ∧ s.current_streak ∈ milestones
      · simp only [hp, hm, if_true, true_and, if_pos, hok]
        exact ⟨by rw [createNotification_ok_notifs]; simp [mkNotif],
          by simp,
          createNotification_streaks ..,
          (createNotification_userOf ..).trans huo⟩
      · simp only [hp, if_true, true_and]
        rw [if_neg hm, if_neg hm]
        exact ⟨by simp, by simp, rfl, huo⟩
    · refine ⟨?_, ?_, ?_, ?_⟩ <;> simp [hp, huo]

theorem milestoneScan_go (env : NotifData → CNEnv) (hok : ∀ d, env d = .ok)
    (db : DB) :
    ∀ (L : List Habit) (acc : DB × Nat),
      acc.1.streaks = db.streaks → acc.1.userOf = db.userOf →
      (L.foldl (milestoneStep env) acc).1.notifs.map (·.data)
          = acc.1.notifs.map (·.data) ++ L.filterMap (milestoneSpec db)
      ∧ (L.foldl (milestoneStep env) acc).2
          = acc.2 + (L.filterMap (milestoneSpec db)).length := by
  intro L
  induction L with
  | nil => intro acc h1 h2; simp
  | cons h t ih =>
    intro acc h1 h2
    obtain ⟨e1, e2, e3, e4⟩ := milestoneStep_spec env hok db acc h h1 h2
    obtain ⟨f1, f2⟩ := ih (milestoneStep env acc h) (e3.trans h1) (e4.trans h2)
    rw [List.foldl_cons]
    constructor
    · rw [f1, e1]
      cases hms : milestoneSpec db h <;> simp [hms]
    · rw [f2, e2]
      cases hms : milestoneSpec db h <;> simp [hms]
      omega

/-- **C4.** The daily milestone scan emits a milestone notification for a habit
row if and only if the habit is active, its owner prefers notifications, it has
a streak row, and the first streak row's `current_streak` is positive and is
*exactly a member* of the milestone set `{7,14,21,30,60,90,100,180,365}`
(exact membership, not a threshold): the notifications appended by the scan are
precisely `milestoneSpec` applied to the active habits, and `milestoneSpec`
fires exactly under those preconditions. -/
theorem milestoneScan_correct (db : DB) (env : NotifData → CNEnv)
    (hok : ∀ d, env d = .ok) :
    (milestoneScan db env).1.notifs.map (·.data)
      = db.notifs.map (·.data)
        ++ (db.habits.filter (·.is_active)).filterMap (milestoneSpec db)
    ∧ (milestoneScan db env).2
        = ((db.habits.filter (·.is_active)).filterMap (milestoneSpec db)).length
    ∧ (∀ h : Habit, streakRowsOf db h = [] → milestoneSpec db h = none)
    ∧ (∀ (h : Habit) (s : HabitStreak) (rest : List HabitStreak),
        streakRowsOf db h = s :: rest →
        (milestoneSpec db h = some (milestoneNotifData h s) ↔
          ((db.userOf h.user_id).prefersNotifications = true
            ∧ 0 < s.current_streak ∧ s.current_streak ∈ milestones))) := by
  unfold milestoneScan
  obtain ⟨g1, g2⟩ := milestoneScan_go env hok db (db.habits.filter (·.is_active))
    (db, 0) rfl rfl
  refine ⟨g1, by rw [g2]; exact Nat.zero_add _, ?_, ?_⟩
  · intro h hnil
    unfold milestoneSpec
    rw [hnil]
  · intro h s rest hrows
    unfold milestoneSpec
    rw [hrows]
    by_cases hc : (db.userOf h.user_id).prefersNotifications = true
        ∧ 0 < s.current_streak ∧ s.current_streak ∈ milestones
    · simp [hc]
    · simp only [hc, iff_false]
      simp

/-- Concrete fixture for the C4 witness: one active habit at streak exactly 7
whose owner allows notifications. -/
def c4User : User := ⟨1, "amy", true, false, 3, 0⟩

def c4Habit : Habit := ⟨1, 1, "Run", true⟩

def c4DB : DB :=
  ⟨[c4User], fun _ => c4User, fun _ => c4Habit, [c4Habit], [⟨1, 1, 7⟩],
    [], [], [], 0, 0⟩

theorem milestoneScan_correct_witness :
    (milestoneScan c4DB (fun _ => .ok)).2 = 1 := by
  have h := milestoneScan_correct c4DB (fun _ => .ok) (fun _ => rfl)
  rw [h.2.1]
  decide

/-! ## C9: createNotification swallows its errors (cron.js lines 53-85)

The embedding of `createNotification` is a total function (it returns a pair,
never an exception value), mirroring that every error raised by the row insert
or the push fan-out is caught by the function's own try/catch; the JS function
then falls through and returns `undefined`, embedded as `none`. -/

/-- **C9.** `createNotification` never throws: it returns `none` exactly when
one of its two external operations failed, a database-insert failure persists
nothing, and a push-send failure occurring *after* the insert leaves the
already-persisted notification row in place (no rollback).  In every case the
notification table is either untouched or extended by exactly the new row. -/
theorem createNotification_never_throws (db : DB) (d : NotifData) (env : CNEnv) :
    ((createNotification db d env).2 = none ↔ env ≠ .ok)
    ∧ (∀ m, env = .pushFail m →
        (createNotification db d env).1.notifs
          = db.notifs ++ [mkNotif db.nextNotifId d])
    ∧ (∀ m, env = .dbFail m → (createNotification db d env).1 = db)
    ∧ ((createNotification db d env).1.notifs = db.notifs
        ∨ (createNotification db d env).1.notifs
            = db.notifs ++ [mkNotif db.nextNotifId d]) := by
  cases env <;> simp [createNotification]

def c9User : User := ⟨7, "bob", true, false, 3, 0⟩

def c9DB : DB :=
  ⟨[c9User], fun _ => c9User, fun _ => ⟨1, 7, "Read", true⟩, [], [], [], [], [], 5, 0⟩

def c9Data : NotifData :=
  ⟨7, "Weekly Summary 📊", "hello", .SYSTEM_MESSAGE, none, some "/stats"⟩

theorem createNotification_never_throws_witness :
    (createNotification c9DB c9Data (.pushFail "socket closed")).1.notifs
      = c9DB.notifs ++ [mkNotif c9DB.nextNotifId c9Data]
    ∧ (createNotification c9DB c9Data (.pushFail "socket closed")).2 = none := by
  have h := createNotification_never_throws c9DB c9Data (.pushFail "socket closed")
  exact ⟨h.2.1 "socket closed" rfl, h.1.mpr (by simp)⟩

/-! ## streak-warning-check (cron.js lines 298-372, threshold 2)

The scan's skip conditions in the source are: no streak row above 2, owner on
vacation, habit not scheduled today, habit already completed today.  The
quiet-hours check (`isInQuietHours`) appears only in the
`streak-preservation-reminder` job (threshold 7), not here. -/

/-- Payload of the 'Streak at Risk!' notification (cron.js lines 96-103). -/
def warningNotifData (userId : Nat) (habitName : String) (currentStreak : Int)
    (habitId : Nat) : NotifData :=
  { user_id := userId
    title := "Streak at Risk!"
    content := "Your " ++ toString currentStreak ++ "-day streak for \""
      ++ habitName ++ "\" will be reset if you do not complete it today!"
    type := .STREAK_MILESTONE
    related_id := some habitId
    action_url := some ("/habits/" ++ toString habitId) }

/-- The high-priority STREAK_WARNING scheduled reminder created for 8 PM
(cron.js lines 112-127). -/
def mkWarningReminder (id habitId userId : Nat) (eightPM : Int)
    (currentStreak : Int) (habitName : String) : ScheduledReminder :=
  { scheduled_reminder_id := id, habit_id := habitId, user_id := userId
    scheduled_time := eightPM, reminder_type := "STREAK_WARNING"
    message := "⚠️ STREAK ALERT: Your " ++ toString currentStreak
      ++ "-day streak for \"" ++ habitName
      ++ "\" will be reset tonight if not completed!"
    is_sent := false, is_prepared := true, actual_send_time := none
    send_status := none, failure_reason := none, notification_id := none }

/-- cron.js `createStreakWarningNotification` (lines 94-132): create the
notification; when `now` is still before today's 8 PM (`eightPM` is the
timestamp the code builds with `reminderTime.setHours(20, 0, 0)`), also create
a high-priority STREAK_WARNING reminder scheduled for 8 PM. -/
def createStreakWarningNotification (db : DB) (userId : Nat) (habitName : String)
    (currentStreak : Int) (habitId : Nat) (now eightPM : Int) (env : CNEnv) : DB :=
  let db1 := (createNotification db
    (warningNotifData userId habitName currentStreak habitId) env).1
  if now < eightPM then
    { db1 with
      reminders := db1.reminders
        ++ [mkWarningReminder db1.nextReminderId habitId userId eightPM
              currentStreak habitName]
      nextReminderId := db1.nextReminderId + 1 }
  else db1

/-- One iteration of the `for (const habit of habitsAtRisk)` loop (lines
325-357): skip when there is no streak row with `current_streak > 2` or the
owner is on vacation; then skip when not scheduled today; then warn exactly
when not already completed today. -/
def streakWarningStep (sched : Habit → Bool) (compl : Nat → Nat → Bool)
    (now eightPM : Int) (env : NotifData → CNEnv) (acc : DB × Nat) (h : Habit) :
    DB × Nat :=
  match streakRowsAbove acc.1 h 2 with
  | [] => acc
  | s :: _ =>
    if (acc.1.userOf h.user_id).onVacation then acc
    else if sched h then
      if compl h.habit_id h.user_id then acc
      else
        (createStreakWarningNotification acc.1 h.user_id h.name s.current_streak
          h.habit_id now eightPM
          (env (warningNotifData h.user_id h.name s.current_streak h.habit_id)),
         acc.2 + 1)
    else acc

/-- The `streak-warning-check` job body: query all active habits (with streak
rows filtered to `current_streak > 2` and the owner joined), then loop.
`sched`/`compl` are the external `ReminderService` predicates. -/
def streakWarningCheck (db : DB) (sched : Habit → Bool) (compl : Nat → Nat → Bool)
    (now eightPM : Int) (env : NotifData → CNEnv) : DB × Nat :=
  (db.habits.filter (·.is_active)).foldl
    (streakWarningStep sched compl now eightPM env) (db, 0)

/-- The per-habit decision of the warning scan. -/
def warningSpec (db : DB) (sched : Habit → Bool) (compl : Nat → Nat → Bool)
    (h : Habit) : Option NotifData :=
  match streakRowsAbove db h 2 with
  | [] => none
  | s :: _ =>
    if (db.userOf h.user_id).onVacation = false ∧ sched h = true
        ∧ compl h.habit_id h.user_id = false then
      some (warningNotifData h.user_id h.name s.current_streak h.habit_id)
    else none

theorem createStreakWarningNotification_notifs (db : DB) (userId : Nat)
    (habitName : String) (currentStreak : Int) (habitId : Nat) (now eightPM : Int)
    (env : CNEnv) :
    (createStreakWarningNotification db userId habitName currentStreak habitId
        now eightPM env).notifs
      = (createNotification db
          (warningNotifData userId habitName currentStreak habitId) env).1.notifs := by
  unfold createStreakWarningNotification
  split <;> rfl

theorem createStreakWarningNotification_streaks (db : DB) (userId : Nat)
    (habitName : String) (currentStreak : Int) (habitId : Nat) (now eightPM : Int)
    (env : CNEnv) :
    (createStreakWarningNotification db userId habitName currentStreak habitId
        now eightPM env).streaks = db.streaks := by
  unfold createStreakWarningNotification
  split <;> simp [createNotification_streaks]

theorem createStreakWarningNotification_userOf (db : DB) (userId : Nat)
    (habitName : String) (currentStreak : Int) (habitId : Nat) (now eightPM : Int)
    (env : CNEnv) :
    (createStreakWarningNotification db userId habitName currentStreak habitId
        now eightPM env).userOf = db.userOf := by
  unfold createStreakWarningNotification
  split <;> simp [createNotification_userOf]

theorem streakWarningStep_spec (sched : Habit → Bool) (compl : Nat → Nat → Bool)
    (now eightPM : Int) (env : NotifData → CNEnv) (hok : ∀ d, env d = .ok)
    (db : DB) (acc : DB × Nat) (h : Habit)
    (hstr : acc.1.streaks = db.streaks) (huo : acc.1.userOf = db.userOf) :
    (streakWarningStep sched compl now eightPM env acc h).1.notifs.map (·.data)
        = acc.1.notifs.map (·.data) ++ (warningSpec db sched compl h).toList
    ∧ (streakWarningStep sched compl now eightPM env acc h).2
        = acc.2 + (warningSpec db sched compl h).toList.length
    ∧ (streakWarningStep sched compl now eightPM env acc h).1.streaks = acc.1.streaks
    ∧ (streakWarningStep sched compl now eightPM env acc h).1.userOf = acc.1.userOf := by
  have hrows : streakRowsAbove acc.1 h 2 = streakRowsAbove db h 2 :=
    streakRowsAbove_congr h 2 hstr
  unfold streakWarningStep warningSpec
  rw [hrows, huo]
  cases hsr : streakRowsAbove db h 2 with
  | nil => exact ⟨by simp, by simp, rfl, huo⟩
  | cons s rest =>
    by_cases hv : (acc.1.userOf h.user_id).onVacation = true
    · rw [huo] at hv
      refine ⟨?_, ?_, ?_, ?_⟩ <;> simp [hv, huo]
    · rw [huo] at hv
      by_cases hsch : sched h = true
      · by_cases hcp : compl h.habit_id h.user_id = true
        · refine ⟨?_, ?_, ?_, ?_⟩ <;> simp [hv, hsch, hcp, huo]
        · have hv' : (db.userOf h.user_id).onVacation = false := by
            revert hv; cases (db.userOf h.user_id).onVacation <;> simp
          have hcp' : compl h.habit_id h.user_id = false := by
            revert hcp; cases compl h.habit_id h.user_id <;> simp
          simp only [hv', Bool.false_eq_true, if_false, hsch, if_true, hcp',
            true_and, and_true, if_pos, and_self]
          rw [hok (warningNotifData h.user_id h.name s.current_streak h.habit_id)]
          refine ⟨?_, by simp, ?_, ?_⟩
          · rw [createStreakWarningNotification_notifs, createNotification_ok_notifs]
            simp [mkNotif]
          · exact createStreakWarningNotification_streaks ..
          · exact (createStreakWarningNotification_userOf ..).trans huo
      · have hsch' : sched h = false := by
          revert hsch; cases sched h <;> simp
        refine ⟨?_, ?_, ?_, ?_⟩ <;> simp [hv, hsch', huo]

theorem streakWarningCheck_go (sched : Habit → Bool) (compl : Nat → Nat → Bool)
    (now eightPM : Int) (env : NotifData → CNEnv) (hok : ∀ d, env d = .ok)
    (db : DB) :
    ∀ (L : List Habit) (acc : DB × Nat),
      acc.1.streaks = db.streaks → acc.1.userOf = db.userOf →
      (L.foldl (streakWarningStep sched compl now eightPM env) acc).1.notifs.map (·.data)
          = acc.1.notifs.map (·.data) ++ L.filterMap (warningSpec db sched compl)
      ∧ (L.foldl (streakWarningStep sched compl now eightPM env) acc).2
          = acc.2 + (L.filterMap (warningSpec db sched compl)).length := by
  intro L
  induction L with
  | nil => intro acc h1 h2; simp
  | cons h t ih =>
    intro acc h1 h2
    obtain ⟨e1, e2, e3, e4⟩ :=
      streakWarningStep_spec sched compl now eightPM env hok db acc h h1 h2
    obtain ⟨f1, f2⟩ := ih (streakWarningStep sched compl now eightPM env acc h)
      (e3.trans h1) (e4.trans h2)
    rw [List.foldl_cons]
    constructor
    · rw [f1, e1]
      cases hms : warningSpec db sched compl h <;> simp [hms]
    · rw [f2, e2]
      cases hms : warningSpec db sched compl h <;> simp [hms]
      omega

/-- **C3 (amended).** The 9 AM at-risk warning scan (threshold 2) emits a
streak warning exactly for the active habits that have a streak row with
`current_streak > 2`, whose owner is not on vacation, that are scheduled today
and not yet completed today.  Quiet hours are *not* consulted by this scan
(see `streakWarning_quiet_counterexample`): `isInQuietHours` is only checked by
the threshold-7 streak-preservation job. -/
theorem streakWarningCheck_correct (db : DB) (sched : Habit → Bool)
    (compl : Nat → Nat → Bool) (now eightPM : Int) (env : NotifData → CNEnv)
    (hok : ∀ d, env d = .ok) :
    (streakWarningCheck db sched compl now eightPM env).1.notifs.map (·.data)
      = db.notifs.map (·.data)
        ++ (db.habits.filter (·.is_active)).filterMap (warningSpec db sched compl)
    ∧ (streakWarningCheck db sched compl now eightPM env).2
        = ((db.habits.filter (·.is_active)).filterMap (warningSpec db sched compl)).length
    ∧ (∀ h : Habit, streakRowsAbove db h 2 = [] → warningSpec db sched compl h = none)
    ∧ (∀ (h : Habit) (s : HabitStreak) (rest : List HabitStreak),
        streakRowsAbove db h 2 = s :: rest →
        (warningSpec db sched compl h
            = some (warningNotifData h.user_id h.name s.current_streak h.habit_id) ↔
          ((db.userOf h.user_id).onVacation = false ∧ sched h = true
            ∧ compl h.habit_id h.user_id = false))) := by
  unfold streakWarningCheck
  obtain ⟨g1, g2⟩ := streakWarningCheck_go sched compl now eightPM env hok db
    (db.habits.filter (·.is_active)) (db, 0) rfl rfl
  refine ⟨g1, by rw [g2]; exact Nat.zero_add _, ?_, ?_⟩
  · intro h hnil
    unfold warningSpec
    rw [hnil]
  · intro h s rest hrows
    unfold warningSpec
    rw [hrows]
    by_cases hc : (db.userOf h.user_id).onVacation = false ∧ sched h = true
        ∧ compl h.habit_id h.user_id = false
    · simp [hc]
    · simp only [hc, iff_false]
      simp

theorem streakWarningCheck_correct_witness :
    (streakWarningCheck c4DB (fun _ => true) (fun _ _ => false) 0 100
        (fun _ => .ok)).2 = 1 := by
  have h := streakWarningCheck_correct c4DB (fun _ => true) (fun _ _ => false)
    0 100 (fun _ => .ok) (fun _ => rfl)
  rw [h.2.1]
  decide

/-- Whether `db` contains a streak-warning notification for habit `habitId`. -/
def warnedFor (db : DB) (habitId : Nat) : Bool :=
  db.notifs.any (fun n =>
    n.data.title == "Streak at Risk!" && n.data.related_id == some habitId)

/-- The claim C3 as stated (written from the spec's Contract B wording, for
comparison with the code): the threshold-2 warning scan was claimed to also
require that the owner is not currently in a configured quiet-hours window
(`quiet` being the quiet-hours oracle); in particular, starting from a state
with no notifications, an owner in quiet hours would receive no warning. -/
def claimC3QuietHonored : Prop :=
  ∀ (db : DB) (sched : Habit → Bool) (compl : Nat → Nat → Bool)
    (quiet : Nat → Bool) (now eightPM : Int) (env : NotifData → CNEnv)
    (h : Habit), db.notifs = [] → h ∈ db.habits → quiet h.user_id = true →
    warnedFor (streakWarningCheck db sched compl now eightPM env).1 h.habit_id
      = false

def c3User : User := ⟨1, "maya", true, false, 3, 0⟩

def c3Habit : Habit := ⟨1, 1, "Meditate", true⟩

/-- Fixture for the C3 counterexample: an active habit with a 5-day streak,
owner not on vacation, scheduled and not completed today — and, per the
quiet-hours oracle `fun _ => true`, currently inside quiet hours. -/
def c3DB : DB :=
  ⟨[c3User], fun _ => c3User, fun _ => c3Habit, [c3Habit], [⟨1, 1, 5⟩],
    [], [], [], 0, 0⟩

/-- **C3 counterexample.** The warning scan emits a 'Streak at Risk!'
notification for a habit whose owner is (per the oracle) currently in quiet
hours: the scan never consults the quiet-hours predicate. -/
theorem streakWarning_quiet_counterexample : ¬ claimC3QuietHonored := by
  intro hclaim
  have h := hclaim c3DB (fun _ => true) (fun _ _ => false) (fun _ => true)
    0 100 (fun _ => .ok) c3Habit rfl (by decide) rfl
  have h2 : warnedFor (streakWarningCheck c3DB (fun _ => true) (fun _ _ => false)
      0 100 (fun _ => .ok)).1 c3Habit.habit_id = true := by decide
  rw [h2] at h
  exact Bool.noConfusion h

/-! ## streak-preservation-reminder (cron.js lines 505-627, threshold 7)

This job runs every two hours during the day; before creating a new
STREAK_PRESERVATION reminder it queries for an existing one for the same
(habit, user) with `scheduled_time` within the last two hours and skips the
creation when one is found. -/

/-- The urgent preservation message (cron.js lines 586 and 603). -/
def presMessage (currentStreak : Int) (habitName : String) : String :=
  "🔥 Do not lose your " ++ toString currentStreak ++ "-day streak for \""
    ++ habitName ++ "\"! Complete it now!"

/-- Payload of the urgent REMINDER-typed notification (lines 600-607). -/
def presNotifData (h : Habit) (s : HabitStreak) : NotifData :=
  { user_id := h.user_id
    title := "Urgent Habit Reminder"
    content := presMessage s.current_streak h.name
    type := .REMINDER
    related_id := some h.habit_id
    action_url := some ("/habits/" ++ toString h.habit_id) }

/-- Two hours in milliseconds (`2 * 60 * 60 * 1000`, line 574). -/
def twoHoursMs : Int := 2 * 60 * 60 * 1000

/-- The dedup query of lines 568-577: an existing STREAK_PRESERVATION reminder
for this (habit, user) with `scheduled_time >= now - 2h`. -/
def hasRecentPres (db : DB) (habitId userId : Nat) (now : Int) : Bool :=
  db.reminders.any (fun r =>
    r.habit_id == habitId && r.user_id == userId
      && r.reminder_type == "STREAK_PRESERVATION"
      && decide (now - twoHoursMs ≤ r.scheduled_time))

/-- The STREAK_PRESERVATION reminder row created at lines 580-597, scheduled
at the current instant. -/
def mkPresReminder (id : Nat) (h : Habit) (s : HabitStreak) (now : Int) :
    ScheduledReminder :=
  { scheduled_reminder_id := id, habit_id := h.habit_id, user_id := h.user_id
    scheduled_time := now, reminder_type := "STREAK_PRESERVATION"
    message := presMessage s.current_streak h.name
    is_sent := false, is_prepared := true, actual_send_time := none
    send_status := none, failure_reason := none, notification_id := none }

/-- One iteration of the `for (const habit of highValueHabits)` loop (lines
540-612): skip without a streak row above 7, or when the owner is on vacation
or has notifications off; then require scheduled today, not completed today,
not in quiet hours; then the 2-hour dedup check gates the creation of the
reminder row plus the urgent notification. -/
def presStep (sched : Habit → Bool) (compl : Nat → Nat → Bool) (quiet : Nat → Bool)
    (now : Int) (env : NotifData → CNEnv) (acc : DB × Nat) (h : Habit) : DB × Nat :=
  match streakRowsAbove acc.1 h 7 with
  | [] => acc
  | s :: _ =>
    if (acc.1.userOf h.user_id).onVacation
        || !(acc.1.userOf h.user_id).prefersNotifications then acc
    else if sched h then
      if !(compl h.habit_id h.user_id) && !(quiet h.user_id) then
        if hasRecentPres acc.1 h.habit_id h.user_id now then acc
        else
          let db1 : DB := { acc.1 with
            reminders := acc.1.reminders
              ++ [mkPresReminder acc.1.nextReminderId h s now]
            nextReminderId := acc.1.nextReminderId + 1 }
          ((createNotification db1 (presNotifData h s) (env (presNotifData h s))).1,
           acc.2 + 1)
      else acc
    else acc

/-- The `streak-preservation-reminder` job body. -/
def streakPreservationScan (db : DB) (sched : Habit → Bool)
    (compl : Nat → Nat → Bool) (quiet : Nat → Bool) (now : Int)
    (env : NotifData → CNEnv) : DB × Nat :=
  (db.habits.filter (·.is_active)).foldl (presStep sched compl quiet now env) (db, 0)

/-- Number of STREAK_PRESERVATION reminder rows for a (habit, user) pair. -/
def presCount (db : DB) (habitId userId : Nat) : Nat :=
  (db.reminders.filter (fun r =>
    r.habit_id == habitId && r.user_id == userId
      && r.reminder_type == "STREAK_PRESERVATION")).length

theorem presStep_preserves (sched : Habit → Bool) (compl : Nat → Nat → Bool)
    (quiet : Nat → Bool) (now : Int) (env : NotifData → CNEnv)
    (habitId userId : Nat) (acc : DB × Nat) (h : Habit)
    (hrec : hasRecentPres acc.1 habitId userId now = true) :
    hasRecentPres (presStep sched compl quiet now env acc h).1 habitId userId now = true
    ∧ presCount (presStep sched compl quiet now env acc h).1 habitId userId
        = presCount acc.1 habitId userId := by
  unfold presStep
  cases hsr : streakRowsAbove acc.1 h 7 with
  | nil => exact ⟨hrec, rfl⟩
  | cons s rest =>
    dsimp only
    by_cases hvac : ((acc.1.userOf h.user_id).onVacation
        || !(acc.1.userOf h.user_id).prefersNotifications) = true
    · rw [if_pos hvac]
      exact ⟨hrec, rfl⟩
    · rw [if_neg hvac]
      by_cases hsch : sched h = true
      · rw [if_pos hsch]
        by_cases hcq : (!(compl h.habit_id h.user_id) && !(quiet h.user_id)) = true
        · rw [if_pos hcq]
          by_cases hdup : hasRecentPres acc.1 h.habit_id h.user_id now = true
          · rw [if_pos hdup]
            exact ⟨hrec, rfl⟩
          · rw [if_neg hdup]
            -- the created row is for (h.habit_id, h.user_id), which cannot be
            -- the pair (habitId, userId): that pair has a recent row, h has none
            have hne : ¬(h.habit_id = habitId ∧ h.user_id = userId) := by
              rintro ⟨rfl, rfl⟩
              exact hdup hrec
            have hxne : ((mkPresReminder acc.1.nextReminderId h s now).habit_id
                  == habitId
                && (mkPresReminder acc.1.nextReminderId h s now).user_id == userId
                && ((mkPresReminder acc.1.nextReminderId h s now).reminder_type
                  == "STREAK_PRESERVATION")) = false := by
              simp only [mkPresReminder]
              by_cases h1 : h.habit_id = habitId
              · by_cases h2 : h.user_id = userId
                · exact absurd ⟨h1, h2⟩ hne
                · simp [h2]
              · simp [h1]
            constructor
            · dsimp only
              unfold hasRecentPres at hrec ⊢
              rw [createNotification_reminders]
              dsimp only
              rw [List.any_append, hrec, Bool.true_or]
            · dsimp only
              unfold presCount
              rw [createNotification_reminders]
              dsimp only
              rw [List.filter_append]
              simp [List.filter_cons, hxne]
        · rw [if_neg hcq]
          exact ⟨hrec, rfl⟩
      · rw [if_neg hsch]
        exact ⟨hrec, rfl⟩

theorem presScan_go (sched : Habit → Bool) (compl : Nat → Nat → Bool)
    (quiet : Nat → Bool) (now : Int) (env : NotifData → CNEnv)
    (habitId userId : Nat) :
    ∀ (L : List Habit) (acc : DB × Nat),
      hasRecentPres acc.1 habitId userId now = true →
      hasRecentPres (L.foldl (presStep sched compl quiet now env) acc).1
          habitId userId now = true
      ∧ presCount (L.foldl (presStep sched compl quiet now env) acc).1
          habitId userId = presCount acc.1 habitId userId := by
  intro L
  induction L with
  | nil => intro acc hrec; exact ⟨hrec, rfl⟩
  | cons h t ih =>
    intro acc hrec
    obtain ⟨e1, e2⟩ :=
      presStep_preserves sched compl quiet now env habitId userId acc h hrec
    obtain ⟨f1, f2⟩ := ih (presStep sched compl quiet now env acc h) e1
    exact ⟨f1, by rw [List.foldl_cons, f2, e2]⟩

/-- **C5.** Rolling 2-hour rate limit of STREAK_PRESERVATION reminders: when
the database already holds a STREAK_PRESERVATION reminder for (habit, user)
whose `scheduled_time` lies within the last two hours of `now` (the dedup
query `hasRecentPres`), a preservation scan at `now` creates no further
STREAK_PRESERVATION row for that pair — the count of such rows is unchanged.
Together with the fact that the scan stamps created rows with
`scheduled_time = now`, two scans 90 minutes apart produce only one row (see
the witness). -/
theorem presScan_rate_limited (db : DB) (sched : Habit → Bool)
    (compl : Nat → Nat → Bool) (quiet : Nat → Bool) (now : Int)
    (env : NotifData → CNEnv) (habitId userId : Nat)
    (hrec : hasRecentPres db habitId userId now = true) :
    presCount (streakPreservationScan db sched compl quiet now env).1
        habitId userId = presCount db habitId userId := by
  unfold streakPreservationScan
  exact (presScan_go sched compl quiet now env habitId userId
    (db.habits.filter (·.is_active)) (db, 0) hrec).2

def c5User : User := ⟨1, "zoe", true, false, 3, 0⟩

def c5Habit : Habit := ⟨1, 1, "Stretch", true⟩

/-- Fixture for the C5 witness: an active habit with a 9-day streak passing
every precondition of the preservation scan. -/
def c5DB : DB :=
  ⟨[c5User], fun _ => c5User, fun _ => c5Habit, [c5Habit], [⟨1, 1, 9⟩],
    [], [], [], 0, 0⟩

/-- First preservation scan of the C5 scenario, at t1 = 10000000. -/
def c5DB1 : DB :=
  (streakPreservationScan c5DB (fun _ => true) (fun _ _ => false) (fun _ => false)
    10000000 (fun _ => .ok)).1

/-- **C5 witness** (the spec's 90-minute scenario): the first scan creates one
STREAK_PRESERVATION row; a second scan 90 minutes later (t2 = t1 + 5400000)
finds it within the 2-hour window and creates nothing, leaving exactly one
row. -/
theorem presScan_rate_limited_witness :
    presCount c5DB1 1 1 = 1
    ∧ hasRecentPres c5DB1 1 1 15400000 = true
    ∧ presCount (streakPreservationScan c5DB1 (fun _ => true) (fun _ _ => false)
        (fun _ => false) 15400000 (fun _ => .ok)).1 1 1 = 1 := by
  refine ⟨by decide, by decide, ?_⟩
  rw [presScan_rate_limited c5DB1 (fun _ => true) (fun _ _ => false)
    (fun _ => false) 15400000 (fun _ => .ok) 1 1 (by decide)]
  decide

/-! ## C6: job lifecycle logging (cron.js lines 18-47 and every handler)

Every `cron.schedule` callback in cron.js has the same shape:
`logJobStatus(name, 'started')`, then `try { body; logJobStatus(name,
'completed', details) } catch (e) { logJobStatus(name, 'failed', {message,
stack}) }` — the catch never re-throws.  `runJob` embeds that shape for an
abstract body that either returns a result summary or throws with an error
message and stack, and `runJobs` embeds the independently scheduled jobs
running back to back. -/

/-- One structured log record produced by `logJobStatus`. -/
structure LogEvent where
  timestamp : Int
  job : String
  status : String
  details : String
  deriving DecidableEq

/-- cron.js `logJobStatus(jobName, status, details)` with the wall-clock
timestamp it reads. -/
def logJobStatus (timestamp : Int) (jobName status details : String) : LogEvent :=
  { timestamp := timestamp, job := jobName, status := status, details := details }

/-- The common try/catch shape of every cron job handler: a `started` record,
then either a `completed` record with duration and result summary, or — when
anything in the body throws — a single `failed` record with the error message
and stack, the error being swallowed at that boundary. -/
def runJob (jobName : String) (t0 t1 : Int)
    (body : Except (String × String) String) : List LogEvent :=
  logJobStatus t0 jobName "started" ""
    :: (match body with
        | .ok summary =>
            [logJobStatus t1 jobName "completed"
              (toString (t1 - t0) ++ "ms " ++ summary)]
        | .error e =>
            [logJobStatus t1 jobName "failed" (e.1 ++ " " ++ e.2)])

/-- A terminal lifecycle record. -/
def isTerminal (ev : LogEvent) : Bool :=
  ev.status == "completed" || ev.status == "failed"

/-- A scheduled job instance: name, start/end instants, body outcome. -/
structure JobRun where
  name : String
  t0 : Int
  t1 : Int
  body : Except (String × String) String

/-- The independently-scheduled jobs executing one after another. -/
def runJobs : List JobRun → List LogEvent
  | [] => []
  | j :: rest => runJob j.name j.t0 j.t1 j.body ++ runJobs rest

/-- **C6.** Every job invocation logs `started` first and then exactly one
terminal record: `completed` with the duration and result summary when the
body finishes, `failed` with the error message and stack when the body throws.
The error is swallowed at the job boundary (`runJob` yields a plain log list,
never an error), and the logs of the remaining jobs are exactly `runJobs rest`
regardless of this job's outcome — a failing job terminates only its own
invocation. -/
theorem runJob_logging (jobName : String) (t0 t1 : Int)
    (body : Except (String × String) String) :
    (runJob jobName t0 t1 body).head?
        = some (logJobStatus t0 jobName "started" "")
    ∧ ((runJob jobName t0 t1 body).filter isTerminal).length = 1
    ∧ (∀ s, body = .ok s →
        runJob jobName t0 t1 body
          = [logJobStatus t0 jobName "started" "",
             logJobStatus t1 jobName "completed" (toString (t1 - t0) ++ "ms " ++ s)])
    ∧ (∀ m st, body = .error (m, st) →
        runJob jobName t0 t1 body
          = [logJobStatus t0 jobName "started" "",
             logJobStatus t1 jobName "failed" (m ++ " " ++ st)])
    ∧ (∀ rest : List JobRun,
        runJobs (⟨jobName, t0, t1, body⟩ :: rest)
          = runJob jobName t0 t1 body ++ runJobs rest) := by
  refine ⟨?_, ?_, ?_, ?_, fun rest => rfl⟩
  · cases body <;> rfl
  · cases body <;> rfl
  · intro s hs
    subst hs
    rfl
  · intro m st hs
    subst hs
    rfl

theorem runJob_logging_witness :
    runJob "daily-streak-update" 0 5 (.error ("db down", "at cron.js:214"))
      = [logJobStatus 0 "daily-streak-update" "started" "",
         logJobStatus 5 "daily-streak-update" "failed" "db down at cron.js:214"] := by
  have h := runJob_logging "daily-streak-update" 0 5 (.error ("db down", "at cron.js:214"))
  have h2 := h.2.2.2.1 "db down" "at cron.js:214" rfl
  rw [h2]
  rfl

/-! ## weekly-habit-review (cron.js lines 652-738) -/

/-- One entry of the `topHabits` array built at lines 710-716. -/
structure TopHabit where
  name : String
  count : Nat
  deriving DecidableEq

/-- The comparator `(a, b) => b.count - a.count` of line 716: descending
completion count. -/
def topHabitRel (a b : TopHabit) : Prop := b.count ≤ a.count

instance : DecidableRel topHabitRel := fun a b => Nat.decLe b.count a.count

instance : IsTotal TopHabit topHabitRel :=
  ⟨fun a b => by unfold topHabitRel; omega⟩

instance : IsTrans TopHabit topHabitRel :=
  ⟨fun a b c hab hbc => by unfold topHabitRel at *; omega⟩

/-- The `habitLog` rows matched by the groupBy query of lines 677-690: the
user's completed logs of the trailing week. -/
def weeklyLogs (db : DB) (uid : Nat) (oneWeekAgo today : Int) : List HabitLog :=
  db.logs.filter (fun l => l.user_id == uid && l.completed
    && decide (oneWeekAgo ≤ l.completed_at) && decide (l.completed_at ≤ today))

/-- The per-habit `_count` of the groupBy query. -/
def logCountFor (logs : List HabitLog) (hid : Nat) : Nat :=
  (logs.filter (fun l => l.habit_id == hid)).length

/-- The distinct `habit_id` group keys of the groupBy query. -/
def groupedHabitIds (logs : List HabitLog) : List Nat :=
  (logs.map (·.habit_id)).dedup

/-- `totalCompletions` (line 707): the reduce-sum of the group counts. -/
def weeklyTotalCompletions (logs : List HabitLog) : Nat :=
  (groupedHabitIds logs).foldl (fun acc hid => acc + logCountFor logs hid) 0

/-- The `topHabits` array of lines 710-716: habit names joined with their
counts, sorted by count descending. -/
def weeklyTopHabits (db : DB) (uid : Nat) (oneWeekAgo today : Int) : List TopHabit :=
  let logs := weeklyLogs db uid oneWeekAgo today
  let ids := groupedHabitIds logs
  List.insertionSort topHabitRel
    ((db.habits.filter (fun h => ids.contains h.habit_id)).map
      (fun h => { name := h.name, count := logCountFor logs h.habit_id }))

/-- The `topHabitsText` built at lines 167-175. -/
def topHabitsText (topHabits : List TopHabit) : String :=
  if topHabits.isEmpty then "No habits completed this week."
  else "Top habits: " ++ String.intercalate ", "
    ((topHabits.take 3).map (fun t => t.name ++ " (" ++ toString t.count ++ " times)"))

/-- The emoji chosen at lines 177-196. -/
def weeklyEmoji (completedCount : Nat) : String :=
  if completedCount == 0 then "🌱"
  else if completedCount < 5 then "👍"
  else if completedCount < 15 then "🎯"
  else if completedCount < 30 then "🔥"
  else "🏆"

/-- The encouragement suffix appended at lines 180-196. -/
def weeklyEncouragement (completedCount : Nat) : String :=
  if completedCount == 0 then " Let us set some goals for next week!"
  else if completedCount < 5 then " You are making progress!"
  else if completedCount < 15 then " Great consistency!"
  else if completedCount < 30 then " You are on fire!"
  else " Incredible dedication!"

/-- Payload of the weekly summary notification (lines 198-204). -/
def weeklySummaryData (userId completedCount : Nat)
    (topHabits : List TopHabit) : NotifData :=
  { user_id := userId
    title := "Weekly Summary " ++ weeklyEmoji completedCount
    content := "You completed " ++ toString completedCount ++ " habits this week! "
      ++ topHabitsText topHabits ++ weeklyEncouragement completedCount
    type := .SYSTEM_MESSAGE
    related_id := none
    action_url := some "/stats" }

/-- cron.js `createWeeklySummaryNotification` (lines 165-205). -/
def createWeeklySummaryNotification (db : DB) (userId completedCount : Nat)
    (topHabits : List TopHabit) (env : CNEnv) : DB :=
  (createNotification db (weeklySummaryData userId completedCount topHabits) env).1

/-- One iteration of the `for (const user of activeUsers)` loop (lines
669-723).  The whole iteration body sits in a per-user try/catch; `uerr`
says whose iteration throws (inside the queries, before any write), which is
caught and only skips that user's report. -/
def weeklyStep (oneWeekAgo today : Int) (uerr : Nat → Bool)
    (env : NotifData → CNEnv) (acc : DB × Nat) (u : User) : DB × Nat :=
  if uerr u.user_id then acc
  else
    (createWeeklySummaryNotification acc.1 u.user_id
      (weeklyTotalCompletions (weeklyLogs acc.1 u.user_id oneWeekAgo today))
      (weeklyTopHabits acc.1 u.user_id oneWeekAgo today)
      (env (weeklySummaryData u.user_id
        (weeklyTotalCompletions (weeklyLogs acc.1 u.user_id oneWeekAgo today))
        (weeklyTopHabits acc.1 u.user_id oneWeekAgo today))),
     acc.2 + 1)

/-- The `weekly-habit-review` job body: all users with notifications on and not
on vacation, then the per-user loop. -/
def weeklyHabitReview (db : DB) (oneWeekAgo today : Int) (uerr : Nat → Bool)
    (env : NotifData → CNEnv) : DB × Nat :=
  (db.users.filter (fun u => u.prefersNotifications && !u.onVacation)).foldl
    (weeklyStep oneWeekAgo today uerr env) (db, 0)

/-- The per-user outcome of the weekly review. -/
def weeklySpec (db : DB) (oneWeekAgo today : Int) (uerr : Nat → Bool) (u : User) :
    Option NotifData :=
  if uerr u.user_id then none
  else some (weeklySummaryData u.user_id
    (weeklyTotalCompletions (weeklyLogs db u.user_id oneWeekAgo today))
    (weeklyTopHabits db u.user_id oneWeekAgo today))

theorem weeklyLogs_congr {db1 db2 : DB} (uid : Nat) (oneWeekAgo today : Int)
    (hl : db1.logs = db2.logs) :
    weeklyLogs db1 uid oneWeekAgo today = weeklyLogs db2 uid oneWeekAgo today := by
  simp [weeklyLogs, hl]

theorem weeklyTopHabits_congr {db1 db2 : DB} (uid : Nat) (oneWeekAgo today : Int)
    (hl : db1.logs = db2.logs) (hh : db1.habits = db2.habits) :
    weeklyTopHabits db1 uid oneWeekAgo today
      = weeklyTopHabits db2 uid oneWeekAgo today := by
  unfold weeklyTopHabits
  rw [weeklyLogs_congr uid oneWeekAgo today hl, hh]

theorem weeklyStep_spec (oneWeekAgo today : Int) (uerr : Nat → Bool)
    (env : NotifData → CNEnv) (hok : ∀ d, env d = .ok) (db : DB)
    (acc : DB × Nat) (u : User)
    (hl : acc.1.logs = db.logs) (hh : acc.1.habits = db.habits) :
    (weeklyStep oneWeekAgo today uerr env acc u).1.notifs.map (·.data)
        = acc.1.notifs.map (·.data) ++ (weeklySpec db oneWeekAgo today uerr u).toList
    ∧ (weeklyStep oneWeekAgo today uerr env acc u).2
        = acc.2 + (weeklySpec db oneWeekAgo today uerr u).toList.length
    ∧ (weeklyStep oneWeekAgo today uerr env acc u).1.logs = acc.1.logs
    ∧ (weeklyStep oneWeekAgo today uerr env acc u).1.habits = acc.1.habits := by
  unfold weeklyStep weeklySpec
  by_cases he : uerr u.user_id = true
  · rw [if_pos he, if_pos he]
    exact ⟨by simp, by simp, rfl, rfl⟩
  · rw [if_neg he, if_neg he]
    unfold createWeeklySummaryNotification
    rw [weeklyLogs_congr u.user_id oneWeekAgo today hl,
        weeklyTopHabits_congr u.user_id oneWeekAgo today hl hh, hok]
    refine ⟨?_, by simp, createNotification_logs .., createNotification_habits ..⟩
    rw [createNotification_ok_notifs]
    simp [mkNotif]

theorem weeklyReview_go (oneWeekAgo today : Int) (uerr : Nat → Bool)
    (env : NotifData → CNEnv) (hok : ∀ d, env d = .ok) (db : DB) :
    ∀ (L : List User) (acc : DB × Nat),
      acc.1.logs = db.logs → acc.1.habits = db.habits →
      (L.foldl (weeklyStep oneWeekAgo today uerr env) acc).1.notifs.map (·.data)
          = acc.1.notifs.map (·.data) ++ L.filterMap (weeklySpec db oneWeekAgo today uerr) := by
  intro L
  induction L with
  | nil => intro acc h1 h2; simp
  | cons u t ih =>
    intro acc h1 h2
    obtain ⟨e1, _, e3, e4⟩ := weeklyStep_spec oneWeekAgo today uerr env hok db acc u h1 h2
    have f1 := ih (weeklyStep oneWeekAgo today uerr env acc u) (e3.trans h1) (e4.trans h2)
    rw [List.foldl_cons, f1, e1]
    cases hms : weeklySpec db oneWeekAgo today uerr u <;> simp [hms]

theorem weeklySpec_user_id (db : DB) (oneWeekAgo today : Int) (uerr : Nat → Bool)
    (w : User) (d : NotifData)
    (hd : weeklySpec db oneWeekAgo today uerr w = some d) : d.user_id = w.user_id := by
  unfold weeklySpec at hd
  by_cases he : uerr w.user_id = true
  · rw [if_pos he] at hd
    exact Option.noConfusion hd
  · rw [if_neg he] at hd
    cases hd
    rfl

theorem weekly_count_zero (db : DB) (oneWeekAgo today : Int) (uerr : Nat → Bool) :
    ∀ (t : List User) (uid : Nat), uid ∉ t.map (·.user_id) →
    (t.filterMap (weeklySpec db oneWeekAgo today uerr)).countP
        (fun d => d.user_id == uid) = 0 := by
  intro t
  induction t with
  | nil => intro uid _; rfl
  | cons w r ih =>
    intro uid h
    simp only [List.map_cons, List.mem_cons, not_or] at h
    obtain ⟨h1, h2⟩ := h
    cases hw : weeklySpec db oneWeekAgo today uerr w with
    | none =>
      rw [List.filterMap_cons_none hw]
      exact ih uid h2
    | some d =>
      rw [List.filterMap_cons_some hw, List.countP_cons]
      have hne : (d.user_id == uid) = false := by
        rw [weeklySpec_user_id db oneWeekAgo today uerr w d hw]
        simp
        exact fun he => h1 he.symm
      simp only [hne, Bool.false_eq_true, if_false]
      have := ih uid h2
      omega

theorem weekly_count_one (db : DB) (oneWeekAgo today : Int) (uerr : Nat → Bool) :
    ∀ (L : List User), (L.map (·.user_id)).Nodup →
      ∀ u ∈ L, uerr u.user_id = false →
    (L.filterMap (weeklySpec db oneWeekAgo today uerr)).countP
        (fun d => d.user_id == u.user_id) = 1 := by
  intro L
  induction L with
  | nil => intro _ u hu; exact absurd hu (List.not_mem_nil u)
  | cons w r ih =>
    intro hnd u hu herr
    rw [List.map_cons, List.nodup_cons] at hnd
    obtain ⟨hw_nin, hnd'⟩ := hnd
    rcases List.mem_cons.mp hu with rfl | hur
    · have hspec : weeklySpec db oneWeekAgo today uerr u
          = some (weeklySummaryData u.user_id
            (weeklyTotalCompletions (weeklyLogs db u.user_id oneWeekAgo today))
            (weeklyTopHabits db u.user_id oneWeekAgo today)) := by
        unfold weeklySpec
        rw [if_neg (by rw [herr]; exact Bool.noConfusion)]
      rw [List.filterMap_cons_some hspec, List.countP_cons]
      have hz := weekly_count_zero db oneWeekAgo today uerr r u.user_id hw_nin
      simp only [hz]
      have : ((weeklySummaryData u.user_id
          (weeklyTotalCompletions (weeklyLogs db u.user_id oneWeekAgo today))
          (weeklyTopHabits db u.user_id oneWeekAgo today)).user_id == u.user_id)
          = true := by simp [weeklySummaryData]
      simp [this]
    · have hne : w.user_id ≠ u.user_id := by
        intro he
        exact hw_nin (he ▸ List.mem_map_of_mem (·.user_id) hur)
      cases hw : weeklySpec db oneWeekAgo today uerr w with
      | none =>
        rw [List.filterMap_cons_none hw]
        exact ih hnd' u hur herr
      | some d =>
        rw [List.filterMap_cons_some hw, List.countP_cons]
        have hdw : (d.user_id == u.user_id) = false := by
          rw [weeklySpec_user_id db oneWeekAgo today uerr w d hw]
          simp
          exact hne
        simp only [hdw, Bool.false_eq_true, if_false]
        have := ih hnd' u hur herr
        omega

/-- **C7.** The weekly digest appends exactly the per-user summaries of the
opted-in, non-vacationing users (one summary per such user when that user's
report generation does not throw, none when it does, errors never stopping the
remaining users); every user's `topHabits` list — built from the user's
completed habit logs of the trailing week `[oneWeekAgo, today]` — is sorted by
completion count in descending order. -/
theorem weeklyHabitReview_correct (db : DB) (oneWeekAgo today : Int)
    (uerr : Nat → Bool) (env : NotifData → CNEnv) (hok : ∀ d, env d = .ok) :
    (weeklyHabitReview db oneWeekAgo today uerr env).1.notifs.map (·.data)
      = db.notifs.map (·.data)
        ++ (db.users.filter (fun u => u.prefersNotifications && !u.onVacation)).filterMap
            (weeklySpec db oneWeekAgo today uerr)
    ∧ (∀ uid, List.Sorted topHabitRel (weeklyTopHabits db uid oneWeekAgo today))
    ∧ (∀ u, uerr u.user_id = true → weeklySpec db oneWeekAgo today uerr u = none)
    ∧ (((db.users.filter (fun u => u.prefersNotifications && !u.onVacation)).map
          (·.user_id)).Nodup →
        ∀ u ∈ db.users.filter (fun u => u.prefersNotifications && !u.onVacation),
          uerr u.user_id = false →
          ((db.users.filter (fun u => u.prefersNotifications && !u.onVacation)).filterMap
              (weeklySpec db oneWeekAgo today uerr)).countP
            (fun d => d.user_id == u.user_id) = 1) := by
  refine ⟨?_, ?_, ?_, ?_⟩
  · exact weeklyReview_go oneWeekAgo today uerr env hok db
      (db.users.filter (fun u => u.prefersNotifications && !u.onVacation)) (db, 0) rfl rfl
  · intro uid
    unfold weeklyTopHabits
    exact List.sorted_insertionSort topHabitRel _
  · intro u he
    unfold weeklySpec
    rw [if_pos he]
  · intro hnd u hu herr
    exact weekly_count_one db oneWeekAgo today uerr _ hnd u hu herr

def c7User : User := ⟨1, "kai", true, false, 3, 0⟩

/-- Fixture for the C7 witness: one eligible user with three completed logs in
the week over two habits. -/
def c7DB : DB :=
  ⟨[c7User], fun _ => c7User, fun _ => ⟨1, 1, "Run", true⟩,
    [⟨1, 1, "Run", true⟩, ⟨2, 1, "Read", true⟩], [],
    [], [⟨1, 1, true, 10⟩, ⟨2, 1, true, 20⟩, ⟨2, 1, true, 30⟩], [], 0, 0⟩

theorem weeklyHabitReview_correct_witness :
    ((c7DB.users.filter (fun u => u.prefersNotifications && !u.onVacation)).filterMap
        (weeklySpec c7DB 0 100 (fun _ => false))).countP
      (fun d => d.user_id == c7User.user_id) = 1 := by
  have h := weeklyHabitReview_correct c7DB 0 100 (fun _ => false) (fun _ => .ok)
    (fun _ => rfl)
  exact h.2.2.2 (by decide) c7User (by decide) rfl

/-! ## daily-goal-check (cron.js lines 741-809) -/

/-- The count query of lines 772-781: the user's completed logs dated today
(`completed_at` in `[today, tomorrow)`). -/
def todayCount (db : DB) (uid : Nat) (today tomorrow : Int) : Nat :=
  (db.logs.filter (fun l => l.user_id == uid && l.completed
    && decide (today ≤ l.completed_at) && decide (l.completed_at < tomorrow))).length

/-- Payload of the congratulatory notification (lines 785-791). -/
def goalNotifData (u : User) (completedCount : Nat) : NotifData :=
  { user_id := u.user_id
    title := "Daily Goal Achieved! 🎯"
    content := "Congratulations! You have completed " ++ toString completedCount
      ++ "/" ++ toString u.dailyGoal ++ " habits today. Keep up the great work!"
    type := .ACHIEVEMENT_UNLOCKED
    related_id := none
    action_url := some "/stats" }

/-- One iteration of the `for (const user of users)` loop (lines 770-794):
count today's completions and notify exactly when `completedCount >=
user.dailyGoal`. -/
def dailyGoalStep (today tomorrow : Int) (env : NotifData → CNEnv)
    (acc : DB × Nat) (u : User) : DB × Nat :=
  let c := todayCount acc.1 u.user_id today tomorrow
  if u.dailyGoal ≤ (c : Int) then
    ((createNotification acc.1 (goalNotifData u c) (env (goalNotifData u c))).1,
     acc.2 + 1)
  else acc

/-- The `daily-goal-check` job body: users with notifications on, not on
vacation and a positive daily goal, then the per-user loop. -/
def dailyGoalCheck (db : DB) (today tomorrow : Int) (env : NotifData → CNEnv) :
    DB × Nat :=
  (db.users.filter (fun u => u.prefersNotifications && !u.onVacation
    && decide (0 < u.dailyGoal))).foldl (dailyGoalStep today tomorrow env) (db, 0)

/-- The per-user outcome of the goal scan: reads only the user row and the
habit-log table — never the notification table (no dedup against an existing
same-day goal notification). -/
def dailyGoalSpec (db : DB) (today tomorrow : Int) (u : User) : Option NotifData :=
  if u.dailyGoal ≤ (todayCount db u.user_id today tomorrow : Int) then
    some (goalNotifData u (todayCount db u.user_id today tomorrow))
  else none

theorem todayCount_congr {db1 db2 : DB} (uid : Nat) (today tomorrow : Int)
    (hl : db1.logs = db2.logs) :
    todayCount db1 uid today tomorrow = todayCount db2 uid today tomorrow := by
  simp [todayCount, hl]

theorem dailyGoalStep_spec (today tomorrow : Int) (env : NotifData → CNEnv)
    (hok : ∀ d, env d = .ok) (db : DB) (acc : DB × Nat) (u : User)
    (hl : acc.1.logs = db.logs) :
    (dailyGoalStep today tomorrow env acc u).1.notifs.map (·.data)
        = acc.1.notifs.map (·.data) ++ (dailyGoalSpec db today tomorrow u).toList
    ∧ (dailyGoalStep today tomorrow env acc u).2
        = acc.2 + (dailyGoalSpec db today tomorrow u).toList.length
    ∧ (dailyGoalStep today tomorrow env acc u).1.logs = acc.1.logs := by
  unfold dailyGoalStep dailyGoalSpec
  rw [todayCount_congr u.user_id today tomorrow hl]
  by_cases hc : u.dailyGoal ≤ (todayCount db u.user_id today tomorrow : Int)
  · rw [if_pos hc, if_pos hc, hok]
    refine ⟨?_, by simp, createNotification_logs ..⟩
    rw [createNotification_ok_notifs]
    simp [mkNotif]
  · rw [if_neg hc, if_neg hc]
    exact ⟨by simp, by simp, rfl⟩

theorem dailyGoalCheck_go (today tomorrow : Int) (env : NotifData → CNEnv)
    (hok : ∀ d, env d = .ok) (db : DB) :
    ∀ (L : List User) (acc : DB × Nat), acc.1.logs = db.logs →
      (L.foldl (dailyGoalStep today tomorrow env) acc).1.notifs.map (·.data)
          = acc.1.notifs.map (·.data) ++ L.filterMap (dailyGoalSpec db today tomorrow) := by
  intro L
  induction L with
  | nil => intro acc h1; simp
  | cons u t ih =>
    intro acc h1
    obtain ⟨e1, _, e3⟩ := dailyGoalStep_spec today tomorrow env hok db acc u h1
    have f1 := ih (dailyGoalStep today tomorrow env acc u) (e3.trans h1)
    rw [List.foldl_cons, f1, e1]
    cases hms : dailyGoalSpec db today tomorrow u <;> simp [hms]

/-- **C8.** For the users considered by the scan (notifications on, not on
vacation, daily goal > 0) a congratulatory notification is emitted if and only
if today's completed-log count reaches the goal; and the scan's emission
decisions never read the notification table — the same scan over a state with
any other notification list (in particular one already holding a same-day
goal-achieved notification) emits exactly the same payloads, so nothing
deduplicates repeated goal-achieved notifications. -/
theorem dailyGoalCheck_correct (db : DB) (today tomorrow : Int)
    (env : NotifData → CNEnv) (hok : ∀ d, env d = .ok) :
    (dailyGoalCheck db today tomorrow env).1.notifs.map (·.data)
      = db.notifs.map (·.data)
        ++ (db.users.filter (fun u => u.prefersNotifications && !u.onVacation
              && decide (0 < u.dailyGoal))).filterMap (dailyGoalSpec db today tomorrow)
    ∧ (∀ u : User,
        (dailyGoalSpec db today tomorrow u
            = some (goalNotifData u (todayCount db u.user_id today tomorrow)) ↔
          u.dailyGoal ≤ (todayCount db u.user_id today tomorrow : Int)))
    ∧ (∀ N : List Notification,
        (dailyGoalSpec { db with notifs := N } today tomorrow)
          = dailyGoalSpec db today tomorrow) := by
  refine ⟨?_, ?_, fun N => rfl⟩
  · exact dailyGoalCheck_go today tomorrow env hok db
      (db.users.filter (fun u => u.prefersNotifications && !u.onVacation
        && decide (0 < u.dailyGoal))) (db, 0) rfl
  · intro u
    unfold dailyGoalSpec
    by_cases hc : u.dailyGoal ≤ (todayCount db u.user_id today tomorrow : Int)
    · simp [hc]
    · simp [hc]

def c8User : User := ⟨1, "ana", true, false, 2, 0⟩

/-- Fixture for the C8 witness: a user with daily goal 2 and two completed
logs today — and an already-present same-day goal notification, which does not
suppress the new one. -/
def c8DB : DB :=
  ⟨[c8User], fun _ => c8User, fun _ => ⟨1, 1, "Run", true⟩, [], [],
    [], [⟨1, 1, true, 10⟩, ⟨2, 1, true, 20⟩],
    [⟨0, goalNotifData c8User 2, false⟩], 1, 0⟩

theorem dailyGoalCheck_correct_witness :
    dailyGoalSpec c8DB 0 100 c8User = some (goalNotifData c8User 2)
    ∧ (dailyGoalCheck c8DB 0 100 (fun _ => .ok)).1.notifs.map (·.data)
        = [goalNotifData c8User 2, goalNotifData c8User 2] := by
  have h := dailyGoalCheck_correct c8DB 0 100 (fun _ => .ok) (fun _ => rfl)
  constructor
  · have h2 := (h.2.1 c8User).mpr (by decide)
    rw [h2]
    decide
  · rw [h.1]
    decide

/-! ## new-user-welcome (cron.js lines 812-873)

The job selects users registered within the last 30 minutes who have no
SYSTEM_MESSAGE notification whose title contains 'Welcome', then sends each a
welcome notification titled 'Welcome to HabitPulse! 👋' (which itself matches
that filter).  The per-user try/catch of the loop can never fire because
`createNotification` swallows its own errors, so `welcomesSent` counts every
selected user. -/

/-- Substring containment over character lists (the Prisma
`title: contains` filter). -/
def containsSub (needle : List Char) : List Char → Bool
  | [] => needle.isEmpty
  | c :: rest => needle.isPrefixOf (c :: rest) || containsSub needle rest

/-- `title: { contains: 'Welcome' }`. -/
def titleHasWelcome (t : String) : Bool :=
  containsSub "Welcome".toList t.toList

/-- The notification filter of the welcome query (lines 827-834): a
SYSTEM_MESSAGE notification of this user whose title contains 'Welcome'. -/
def welcomePred (uid : Nat) (n : Notification) : Bool :=
  n.data.user_id == uid && (n.data.type == NotificationType.SYSTEM_MESSAGE)
    && titleHasWelcome n.data.title

/-- Whether the user already has a welcome notification (the `none:` filter). -/
def hasWelcomeNotif (db : DB) (uid : Nat) : Bool :=
  db.notifs.any (welcomePred uid)

/-- Number of welcome notifications of a user. -/
def welcomeCount (db : DB) (uid : Nat) : Nat :=
  (db.notifs.filter (welcomePred uid)).length

/-- Payload of the welcome notification (lines 848-854). -/
def welcomeData (uid : Nat) : NotifData :=
  { user_id := uid
    title := "Welcome to HabitPulse! 👋"
    content := "Start tracking your habits and build positive routines. We are excited to have you here!"
    type := .SYSTEM_MESSAGE
    related_id := none
    action_url := some "/dashboard" }

/-- One iteration of the `for (const user of newUsers)` loop (lines 845-859). -/
def welcomeStep (env : NotifData → CNEnv) (acc : DB × Nat) (u : User) : DB × Nat :=
  ((createNotification acc.1 (welcomeData u.user_id) (env (welcomeData u.user_id))).1,
   acc.2 + 1)

/-- The `new-user-welcome` job body: users registered since `thirtyMinutesAgo`
with no existing welcome notification (both checks evaluated against the state
before the loop), then the loop. -/
def newUserWelcome (db : DB) (thirtyMinutesAgo : Int) (env : NotifData → CNEnv) :
    DB × Nat :=
  (db.users.filter (fun u =>
    decide (thirtyMinutesAgo ≤ u.registeredAt) && !hasWelcomeNotif db u.user_id)).foldl
    (welcomeStep env) (db, 0)

/-- Repeated invocations of the welcome job (it fires every 30 minutes). -/
def welcomeRuns (db : DB) : List (Int × (NotifData → CNEnv)) → DB
  | [] => db
  | p :: rest => welcomeRuns (newUserWelcome db p.1 p.2).1 rest

theorem createNotification_notifs_cases (db : DB) (d : NotifData) (env : CNEnv) :
    (createNotification db d env).1.notifs = db.notifs
    ∨ (createNotification db d env).1.notifs = db.notifs ++ [mkNotif db.nextNotifId d] := by
  cases env
  · exact Or.inr rfl
  · exact Or.inl rfl
  · exact Or.inr rfl

theorem welcomeStep_users (env : NotifData → CNEnv) (acc : DB × Nat) (u : User) :
    (welcomeStep env acc u).1.users = acc.1.users :=
  createNotification_users ..

theorem welcomeStep_count_ne (env : NotifData → CNEnv) (acc : DB × Nat) (u : User)
    (uid : Nat) (hne : u.user_id ≠ uid) :
    welcomeCount (welcomeStep env acc u).1 uid = welcomeCount acc.1 uid := by
  unfold welcomeStep welcomeCount
  rcases createNotification_notifs_cases acc.1 (welcomeData u.user_id)
      (env (welcomeData u.user_id)) with hc | hc
  · rw [hc]
  · rw [hc, List.filter_append, List.length_append]
    have : welcomePred uid (mkNotif acc.1.nextNotifId (welcomeData u.user_id)) = false := by
      simp [welcomePred, mkNotif, welcomeData, hne]
    simp [List.filter_cons, this]

theorem welcomeStep_count_le (env : NotifData → CNEnv) (acc : DB × Nat) (u : User)
    (uid : Nat) :
    welcomeCount (welcomeStep env acc u).1 uid ≤ welcomeCount acc.1 uid + 1 := by
  unfold welcomeStep welcomeCount
  rcases createNotification_notifs_cases acc.1 (welcomeData u.user_id)
      (env (welcomeData u.user_id)) with hc | hc
  · rw [hc]; omega
  · rw [hc, List.filter_append, List.length_append]
    have : (List.filter (welcomePred uid)
        [mkNotif acc.1.nextNotifId (welcomeData u.user_id)]).length ≤ 1 := by
      simp [List.filter_cons]
      split <;> simp
    omega

theorem welcomeFold_users (env : NotifData → CNEnv) :
    ∀ (L : List User) (acc : DB × Nat),
      (L.foldl (welcomeStep env) acc).1.users = acc.1.users := by
  intro L
  induction L with
  | nil => intro acc; rfl
  | cons u t ih =>
    intro acc
    rw [List.foldl_cons, ih, welcomeStep_users]

theorem welcomeFold_count_notmem (env : NotifData → CNEnv) :
    ∀ (L : List User) (acc : DB × Nat) (uid : Nat), (∀ u ∈ L, u.user_id ≠ uid) →
      welcomeCount (L.foldl (welcomeStep env) acc).1 uid = welcomeCount acc.1 uid := by
  intro L
  induction L with
  | nil => intro acc uid _; rfl
  | cons u t ih =>
    intro acc uid hall
    rw [List.foldl_cons,
      ih (welcomeStep env acc u) uid (fun v hv => hall v (List.mem_cons_of_mem u hv)),
      welcomeStep_count_ne env acc u uid (hall u (List.mem_cons_self u t))]

theorem welcomeFold_count_le (env : NotifData → CNEnv) :
    ∀ (L : List User) (acc : DB × Nat) (uid : Nat), (L.map (·.user_id)).Nodup →
      welcomeCount (L.foldl (welcomeStep env) acc).1 uid
        ≤ welcomeCount acc.1 uid + 1 := by
  intro L
  induction L with
  | nil => intro acc uid _; rw [List.foldl_nil]; omega
  | cons u t ih =>
    intro acc uid hnd
    rw [List.map_cons, List.nodup_cons] at hnd
    obtain ⟨hnin, hnd'⟩ := hnd
    by_cases heq : u.user_id = uid
    · rw [List.foldl_cons]
      have hrest : ∀ v ∈ t, v.user_id ≠ uid := by
        intro v hv he
        exact hnin (heq ▸ he ▸ List.mem_map_of_mem (·.user_id) hv)
      rw [welcomeFold_count_notmem env t (welcomeStep env acc u) uid hrest]
      exact welcomeStep_count_le env acc u uid
    · rw [List.foldl_cons]
      have := ih (welcomeStep env acc u) uid hnd'
      rw [welcomeStep_count_ne env acc u uid heq] at this
      exact this

theorem hasWelcomeNotif_false_count (db : DB) (uid : Nat)
    (hw : hasWelcomeNotif db uid = false) : welcomeCount db uid = 0 := by
  unfold hasWelcomeNotif at hw
  unfold welcomeCount
  have hall : ∀ n ∈ db.notifs, ¬ welcomePred uid n = true := by
    intro n hn hp
    have : db.notifs.any (welcomePred uid) = true := List.any_eq_true.mpr ⟨n, hn, hp⟩
    rw [this] at hw
    exact Bool.noConfusion hw
  rw [List.filter_eq_nil_iff.mpr hall]
  rfl

theorem newUserWelcome_le (db : DB) (t : Int) (env : NotifData → CNEnv) (uid : Nat)
    (hnd : (db.users.map (·.user_id)).Nodup) (hle : welcomeCount db uid ≤ 1) :
    welcomeCount (newUserWelcome db t env).1 uid ≤ 1 := by
  unfold newUserWelcome
  by_cases hw : hasWelcomeNotif db uid = true
  · have hex : ∀ u ∈ db.users.filter (fun u =>
        decide (t ≤ u.registeredAt) && !hasWelcomeNotif db u.user_id),
        u.user_id ≠ uid := by
      intro u hu heq
      rw [List.mem_filter] at hu
      obtain ⟨-, hcond⟩ := hu
      rw [heq, hw] at hcond
      simp at hcond
    rw [welcomeFold_count_notmem env _ _ uid hex]
    exact hle
  · have h0 : welcomeCount db uid = 0 :=
      hasWelcomeNotif_false_count db uid (by revert hw; cases hasWelcomeNotif db uid <;> simp)
    have hnd' : ((db.users.filter (fun u =>
        decide (t ≤ u.registeredAt) && !hasWelcomeNotif db u.user_id)).map
          (·.user_id)).Nodup :=
      List.Nodup.sublist
        (List.Sublist.map (fun x : User => x.user_id) (List.filter_sublist db.users)) hnd
    have hfl := welcomeFold_count_le env _ (db, 0) uid hnd'
    have h00 : welcomeCount (db, 0).1 uid = welcomeCount db uid := rfl
    omega

theorem newUserWelcome_users (db : DB) (t : Int) (env : NotifData → CNEnv) :
    (newUserWelcome db t env).1.users = db.users := by
  unfold newUserWelcome
  rw [welcomeFold_users]

/-- **C10.** Across any sequence of welcome-job runs, a user accumulates at
most one welcome notification: the job's own notification (title 'Welcome to
HabitPulse! 👋', type SYSTEM_MESSAGE) matches the dedup filter it queries, and
a user who already has a matching notification is excluded by the `none:`
filter, so a run adds nothing for that user. -/
theorem newUserWelcome_at_most_once (db : DB)
    (runs : List (Int × (NotifData → CNEnv))) (uid : Nat)
    (hnd : (db.users.map (·.user_id)).Nodup)
    (hle : welcomeCount db uid ≤ 1) :
    welcomeCount (welcomeRuns db runs) uid ≤ 1
    ∧ (∀ k, welcomePred uid (mkNotif k (welcomeData uid)) = true)
    ∧ (∀ (t : Int) (env : NotifData → CNEnv), hasWelcomeNotif db uid = true →
        welcomeCount (newUserWelcome db t env).1 uid = welcomeCount db uid) := by
  refine ⟨?_, ?_, ?_⟩
  · induction runs generalizing db with
    | nil => exact hle
    | cons p rest ih =>
      unfold welcomeRuns
      exact ih (newUserWelcome db p.1 p.2).1
        (by rw [newUserWelcome_users]; exact hnd)
        (newUserWelcome_le db p.1 p.2 uid hnd hle)
  · intro k
    simp [welcomePred, mkNotif, welcomeData]
    decide
  · intro t env hw
    unfold newUserWelcome
    have hex : ∀ u ∈ db.users.filter (fun u =>
        decide (t ≤ u.registeredAt) && !hasWelcomeNotif db u.user_id),
        u.user_id ≠ uid := by
      intro u hu heq
      rw [List.mem_filter] at hu
      obtain ⟨-, hcond⟩ := hu
      rw [heq, hw] at hcond
      simp at hcond
    exact welcomeFold_count_notmem env _ _ uid hex

def c10User : User := ⟨1, "neo", true, false, 3, 1000⟩

/-- Fixture for the C10 witness: a user registered at t=1000 with no
notifications yet; the job runs twice inside the registration window. -/
def c10DB : DB :=
  ⟨[c10User], fun _ => c10User, fun _ => ⟨1, 1, "x", true⟩, [], [],
    [], [], [], 0, 0⟩

theorem newUserWelcome_at_most_once_witness :
    welcomeCount (welcomeRuns c10DB [(900, fun _ => .ok), (950, fun _ => .ok)]) 1 ≤ 1
    ∧ welcomeCount (welcomeRuns c10DB [(900, fun _ => .ok), (950, fun _ => .ok)]) 1 = 1 := by
  refine ⟨?_, by decide⟩
  exact (newUserWelcome_at_most_once c10DB [(900, fun _ => .ok), (950, fun _ => .ok)] 1
    (by decide) (by decide)).1

/-! ## process-reminders (cron.js lines 375-502)

The dispatch job.  Every 15 minutes it selects the due reminders
(`scheduled_time <= now`, `is_sent: false`, `is_prepared: true`) with habit and
owner joined, then processes them one by one; each row's processing sits in a
try/catch whose catch marks the row FAILED and moves on.  `RowEnv` says, for
one row, what the external world does: the result of
`isHabitCompletedForDate`, and which of the awaited operations (the two
skip-updates, the completion query, `createNotification`'s internals, the
SENT-update) throws.  When `createNotification` fails internally it returns
`undefined` and the subsequent `notification.id` access throws a TypeError,
landing in the catch. -/

/-- The due-reminder filter of the dispatch query (lines 384-389). -/
def dueP (now : Int) (r : ScheduledReminder) : Bool :=
  decide (r.scheduled_time ≤ now) && !r.is_sent && r.is_prepared

/-- The due set read at the start of a dispatch run. -/
def dueReminders (db : DB) (now : Int) : List ScheduledReminder :=
  db.reminders.filter (dueP now)

/-- External behaviour during one row's processing. -/
structure RowEnv where
  completedToday : Bool
  skipUpdErr : Option String
  complErr : Option String
  skipUpd2Err : Option String
  cnEnv : CNEnv
  sentUpdErr : Option String
  deriving DecidableEq

/-- The aggregate counters of the dispatch run (lines 402-407). -/
structure DispatchResults where
  processed : Nat
  sent : Nat
  skipped : Nat
  failed : Nat
  deriving DecidableEq

/-- The SKIPPED update (lines 414-422 / 435-443). -/
def markSkipped (now : Int) (reason : String) (r : ScheduledReminder) :
    ScheduledReminder :=
  { r with is_sent := true, actual_send_time := some now,
           send_status := some "SKIPPED", failure_reason := some reason }

/-- The SENT update (lines 460-468). -/
def markSent (now : Int) (nid : Nat) (r : ScheduledReminder) : ScheduledReminder :=
  { r with is_sent := true, actual_send_time := some now,
           notification_id := some nid, send_status := some "SENT" }

/-- The FAILED update (lines 475-481): it sets only `send_status` and
`failure_reason` — in particular it does **not** set `is_sent`. -/
def markFailed (msg : String) (r : ScheduledReminder) : ScheduledReminder :=
  { r with send_status := some "FAILED", failure_reason := some msg }

/-- `prisma.scheduledReminder.update({ where: { scheduled_reminder_id: i } })`:
apply `f` to the stored row(s) with that id. -/
def updateReminder (l : List ScheduledReminder) (i : Nat)
    (f : ScheduledReminder → ScheduledReminder) : List ScheduledReminder :=
  l.map (fun x => if x.scheduled_reminder_id == i then f x else x)

/-- `markFailed` applied through the database. -/
def markFailedDb (db : DB) (i : Nat) (msg : String) : DB :=
  { db with reminders := updateReminder db.reminders i (markFailed msg) }

/-- Payload of the reminder notification (lines 449-457); with referential
integrity `reminder.habit` is always present, so the title uses the habit
name. -/
def reminderNotifData (db : DB) (r : ScheduledReminder) : NotifData :=
  { user_id := r.user_id
    title := "Reminder: " ++ (db.habitOf r.habit_id).name
    content := r.message
    type := .REMINDER
    related_id := some r.habit_id
    action_url := some ("/habits/" ++ toString r.habit_id) }

/-- The message of the TypeError raised by `notification.id` when
`createNotification` returned `undefined`. -/
def undefinedIdMsg : String := "TypeError: cannot read id of undefined"

/-- One iteration of the `for (const reminder of dueReminders)` loop (lines
410-485), mirroring the branch order of the source: (i) owner preference /
vacation skip, (ii) already-completed skip, (iii) notification + SENT, (iv)
any error lands in the catch, which marks the row FAILED and continues. -/
def dispatchStep (now : Int) (env : Nat → RowEnv) (acc : DB × DispatchResults)
    (r : ScheduledReminder) : DB × DispatchResults :=
  let db := acc.1
  let res := acc.2
  let e := env r.scheduled_reminder_id
  let u := db.userOf r.user_id
  if !u.prefersNotifications || u.onVacation then
    match e.skipUpdErr with
    | some m => (markFailedDb db r.scheduled_reminder_id m,
                 { res with failed := res.failed + 1 })
    | none =>
        ({ db with reminders := (updateReminder db.reminders r.scheduled_reminder_id
             (markSkipped now "User preferences or status")) },
         { res with skipped := res.skipped + 1 })
  else
    match e.complErr with
    | some m => (markFailedDb db r.scheduled_reminder_id m,
                 { res with failed := res.failed + 1 })
    | none =>
      if e.completedToday then
        match e.skipUpd2Err with
        | some m => (markFailedDb db r.scheduled_reminder_id m,
                     { res with failed := res.failed + 1 })
        | none =>
            ({ db with reminders := (updateReminder db.reminders r.scheduled_reminder_id
                 (markSkipped now "Already completed")) },
             { res with skipped := res.skipped + 1 })
      else
        match (createNotification db (reminderNotifData db r) e.cnEnv).2 with
        | none =>
            (markFailedDb (createNotification db (reminderNotifData db r) e.cnEnv).1
               r.scheduled_reminder_id undefinedIdMsg,
             { res with failed := res.failed + 1 })
        | some n =>
            match e.sentUpdErr with
            | some m =>
                (markFailedDb (createNotification db (reminderNotifData db r) e.cnEnv).1
                   r.scheduled_reminder_id m,
                 { res with failed := res.failed + 1 })
            | none =>
                (let db2 := (createNotification db (reminderNotifData db r) e.cnEnv).1
                 { db2 with reminders := (updateReminder db2.reminders
                     r.scheduled_reminder_id (markSent now n.id)) },
                 { res with sent := res.sent + 1 })

/-- The `process-reminders` job body. -/
def processReminders (db : DB) (now : Int) (env : Nat → RowEnv) :
    DB × DispatchResults :=
  let due := dueReminders db now
  due.foldl (dispatchStep now env) (db, ⟨due.length, 0, 0, 0⟩)

/-- Terminal outcome of one row's processing. -/
inductive Outcome where
  | sent
  | skipped
  | failed
  deriving DecidableEq

/-- The outcome as a function of joined user row and row environment. -/
def rowOutcome (u : User) (e : RowEnv) : Outcome :=
  if !u.prefersNotifications || u.onVacation then
    match e.skipUpdErr with
    | some _ => .failed
    | none => .skipped
  else
    match e.complErr with
    | some _ => .failed
    | none =>
      if e.completedToday then
        match e.skipUpd2Err with
        | some _ => .failed
        | none => .skipped
      else
        match e.cnEnv with
        | .dbFail _ => .failed
        | .pushFail _ => .failed
        | .ok =>
          match e.sentUpdErr with
          | some _ => .failed
          | none => .sent

/-- The message of the error a failing row is marked with. -/
def dispatchErr (u : User) (e : RowEnv) : Option String :=
  if !u.prefersNotifications || u.onVacation then e.skipUpdErr
  else
    match e.complErr with
    | some m => some m
    | none =>
      if e.completedToday then e.skipUpd2Err
      else
        match e.cnEnv with
        | .dbFail _ => some undefinedIdMsg
        | .pushFail _ => some undefinedIdMsg
        | .ok => e.sentUpdErr

/-- The update a due row's processing applies to the stored row (with `nid`
the notification id allocated in the SENT branch). -/
def dispatchedRow (now : Int) (u : User) (e : RowEnv) (nid : Nat) :
    ScheduledReminder → ScheduledReminder :=
  if !u.prefersNotifications || u.onVacation then
    match e.skipUpdErr with
    | some m => markFailed m
    | none => markSkipped now "User preferences or status"
  else
    match e.complErr with
    | some m => markFailed m
    | none =>
      if e.completedToday then
        match e.skipUpd2Err with
        | some m => markFailed m
        | none => markSkipped now "Already completed"
      else
        match e.cnEnv with
        | .dbFail _ => markFailed undefinedIdMsg
        | .pushFail _ => markFailed undefinedIdMsg
        | .ok =>
          match e.sentUpdErr with
          | some m => markFailed m
          | none => markSent now nid

/-- Whether the row's processing reaches `createNotification` and persists a
notification row (everything except the dbFail case). -/
def notifPersisted (u : User) (e : RowEnv) : Bool :=
  !(!u.prefersNotifications || u.onVacation) && e.complErr.isNone
    && !e.completedToday
    && (match e.cnEnv with | .dbFail _ => false | _ => true)

/-- `find?` by reminder id. -/
def findById (l : List ScheduledReminder) (i : Nat) : Option ScheduledReminder :=
  l.find? (fun x => x.scheduled_reminder_id == i)

/-! ### Basic dispatch lemmas -/

theorem markSkipped_id (now : Int) (reason : String) (x : ScheduledReminder) :
    (markSkipped now reason x).scheduled_reminder_id = x.scheduled_reminder_id := rfl

theorem markSent_id (now : Int) (nid : Nat) (x : ScheduledReminder) :
    (markSent now nid x).scheduled_reminder_id = x.scheduled_reminder_id := rfl

theorem markFailed_id (msg : String) (x : ScheduledReminder) :
    (markFailed msg x).scheduled_reminder_id = x.scheduled_reminder_id := rfl

theorem dispatchedRow_id (now : Int) (u : User) (e : RowEnv) (nid : Nat)
    (x : ScheduledReminder) :
    (dispatchedRow now u e nid x).scheduled_reminder_id = x.scheduled_reminder_id := by
  obtain ⟨ct, su, ce, s2, cn, se⟩ := e
  unfold dispatchedRow
  cases h1 : (!u.prefersNotifications || u.onVacation) <;> cases su <;> cases ce <;>
    cases ct <;> cases s2 <;> cases cn <;> cases se <;>
      simp [markFailed, markSkipped, markSent]

theorem updateReminder_ids (l : List ScheduledReminder) (i : Nat)
    (f : ScheduledReminder → ScheduledReminder)
    (hf : ∀ x, (f x).scheduled_reminder_id = x.scheduled_reminder_id) :
    (updateReminder l i f).map (·.scheduled_reminder_id)
      = l.map (·.scheduled_reminder_id) := by
  unfold updateReminder
  rw [List.map_map]
  apply List.map_congr_left
  intro x _
  by_cases hx : (x.scheduled_reminder_id == i) = true
  · simp only [Function.comp_apply, hx, if_pos]
    exact hf x
  · simp only [Function.comp_apply]
    rw [if_neg hx]

theorem findById_update_ne (l : List ScheduledReminder) (i j : Nat)
    (f : ScheduledReminder → ScheduledReminder)
    (hf : ∀ x, (f x).scheduled_reminder_id = x.scheduled_reminder_id)
    (hne : j ≠ i) :
    findById (updateReminder l i f) j = findById l j := by
  unfold findById updateReminder
  induction l with
  | nil => rfl
  | cons x t ih =>
    rw [List.map_cons]
    by_cases hx : (x.scheduled_reminder_id == i) = true
    · rw [if_pos hx]
      have hxi : x.scheduled_reminder_id = i := by simpa using hx
      have hfx : ((f x).scheduled_reminder_id == j) = false := by
        rw [hf x, hxi]
        exact beq_eq_false_iff_ne.mpr fun he => hne he.symm
      have hxj : (x.scheduled_reminder_id == j) = false := by
        rw [hxi]
        exact beq_eq_false_iff_ne.mpr fun he => hne he.symm
      simp only [List.find?_cons, hfx, hxj]
      exact ih
    · rw [if_neg hx]
      by_cases hxj : (x.scheduled_reminder_id == j) = true
      · simp only [List.find?_cons, hxj]
      · have hxj' : (x.scheduled_reminder_id == j) = false := by
          revert hxj
          cases x.scheduled_reminder_id == j <;> simp
        simp only [List.find?_cons, hxj']
        exact ih

theorem findById_update_hit (l : List ScheduledReminder) (i : Nat)
    (f : ScheduledReminder → ScheduledReminder)
    (hf : ∀ x, (f x).scheduled_reminder_id = x.scheduled_reminder_id) :
    findById (updateReminder l i f) i = (findById l i).map f := by
  unfold findById updateReminder
  induction l with
  | nil => rfl
  | cons x t ih =>
    rw [List.map_cons]
    by_cases hx : (x.scheduled_reminder_id == i) = true
    · rw [if_pos hx]
      have hfx : ((f x).scheduled_reminder_id == i) = true := by
        rw [hf x]
        exact hx
      simp only [List.find?_cons, hfx, hx]
      rfl
    · rw [if_neg hx]
      have hx' : (x.scheduled_reminder_id == i) = false := by
        revert hx
        cases x.scheduled_reminder_id == i <;> simp
      simp only [List.find?_cons, hx']
      exact ih

theorem findById_of_nodup (l : List ScheduledReminder)
    (hnd : (l.map (·.scheduled_reminder_id)).Nodup) (r : ScheduledReminder)
    (hr : r ∈ l) : findById l r.scheduled_reminder_id = some r := by
  unfold findById
  induction l with
  | nil => exact absurd hr (List.not_mem_nil r)
  | cons x t ih =>
    rw [List.map_cons, List.nodup_cons] at hnd
    obtain ⟨hnin, hnd'⟩ := hnd
    rcases List.mem_cons.mp hr with rfl | hrt
    · have hxx : (r.scheduled_reminder_id == r.scheduled_reminder_id) = true := by simp
      simp only [List.find?_cons, hxx]
    · have hxne : (x.scheduled_reminder_id == r.scheduled_reminder_id) = false := by
        refine beq_eq_false_iff_ne.mpr ?_
        intro he
        exact hnin (he ▸ List.mem_map_of_mem (·.scheduled_reminder_id) hrt)
      simp only [List.find?_cons, hxne]
      exact ih hnd' hrt

/-- One dispatch iteration, characterized: it rewrites exactly the processed
row's stored value through `dispatchedRow`, appends the created notification
when one is persisted, leaves the joined tables alone, and bumps exactly the
counter of the row's outcome. -/
theorem dispatchStep_char (now : Int) (env : Nat → RowEnv) (acc : DB × DispatchResults)
    (r : ScheduledReminder) :
    (dispatchStep now env acc r).1.reminders
        = updateReminder acc.1.reminders r.scheduled_reminder_id
            (dispatchedRow now (acc.1.userOf r.user_id) (env r.scheduled_reminder_id)
              acc.1.nextNotifId)
    ∧ (dispatchStep now env acc r).1.notifs
        = acc.1.notifs
          ++ (if notifPersisted (acc.1.userOf r.user_id) (env r.scheduled_reminder_id)
              then [mkNotif acc.1.nextNotifId (reminderNotifData acc.1 r)] else [])
    ∧ (dispatchStep now env acc r).1.userOf = acc.1.userOf
    ∧ (dispatchStep now env acc r).1.habitOf = acc.1.habitOf
    ∧ (dispatchStep now env acc r).2.processed = acc.2.processed
    ∧ (dispatchStep now env acc r).2.sent = acc.2.sent
        + (if rowOutcome (acc.1.userOf r.user_id) (env r.scheduled_reminder_id)
            = .sent then 1 else 0)
    ∧ (dispatchStep now env acc r).2.skipped = acc.2.skipped
        + (if rowOutcome (acc.1.userOf r.user_id) (env r.scheduled_reminder_id)
            = .skipped then 1 else 0)
    ∧ (dispatchStep now env acc r).2.failed = acc.2.failed
        + (if rowOutcome (acc.1.userOf r.user_id) (env r.scheduled_reminder_id)
            = .failed then 1 else 0) := by
  unfold dispatchStep dispatchedRow rowOutcome notifPersisted markFailedDb
  dsimp only
  cases h1 : (!(acc.1.userOf r.user_id).prefersNotifications
      || (acc.1.userOf r.user_id).onVacation) with
  | true =>
    cases hs : (env r.scheduled_reminder_id).skipUpdErr with
    | some m => refine ⟨?_, ?_, ?_, ?_, ?_, ?_, ?_, ?_⟩ <;> simp
    | none => refine ⟨?_, ?_, ?_, ?_, ?_, ?_, ?_, ?_⟩ <;> simp
  | false =>
    cases hc : (env r.scheduled_reminder_id).complErr with
    | some m => refine ⟨?_, ?_, ?_, ?_, ?_, ?_, ?_, ?_⟩ <;> simp
    | none =>
      cases hct : (env r.scheduled_reminder_id).completedToday with
      | true =>
        cases hs2 : (env r.scheduled_reminder_id).skipUpd2Err with
        | some m => refine ⟨?_, ?_, ?_, ?_, ?_, ?_, ?_, ?_⟩ <;> simp
        | none => refine ⟨?_, ?_, ?_, ?_, ?_, ?_, ?_, ?_⟩ <;> simp
      | false =>
        cases hcn : (env r.scheduled_reminder_id).cnEnv with
        | dbFail m =>
          refine ⟨?_, ?_, ?_, ?_, ?_, ?_, ?_, ?_⟩ <;> simp [createNotification]
        | pushFail m =>
          refine ⟨?_, ?_, ?_, ?_, ?_, ?_, ?_, ?_⟩ <;> simp [createNotification, mkNotif]
        | ok =>
          cases hse : (env r.scheduled_reminder_id).sentUpdErr with
          | some m =>
            refine ⟨?_, ?_, ?_, ?_, ?_, ?_, ?_, ?_⟩ <;> simp [createNotification, mkNotif]
          | none =>
            refine ⟨?_, ?_, ?_, ?_, ?_, ?_, ?_, ?_⟩ <;> simp [createNotification, mkNotif]

theorem reminderNotifData_congr {db1 db2 : DB} (r : ScheduledReminder)
    (hh : db1.habitOf = db2.habitOf) :
    reminderNotifData db1 r = reminderNotifData db2 r := by
  simp [reminderNotifData, hh]

theorem dispatchFold_inv (now : Int) (env : Nat → RowEnv) :
    ∀ (L : List ScheduledReminder) (acc : DB × DispatchResults),
      (L.foldl (dispatchStep now env) acc).1.userOf = acc.1.userOf
      ∧ (L.foldl (dispatchStep now env) acc).1.habitOf = acc.1.habitOf
      ∧ (L.foldl (dispatchStep now env) acc).1.reminders.map (·.scheduled_reminder_id)
          = acc.1.reminders.map (·.scheduled_reminder_id)
      ∧ ∃ tl, (L.foldl (dispatchStep now env) acc).1.notifs = acc.1.notifs ++ tl := by
  intro L
  induction L with
  | nil => intro acc; exact ⟨rfl, rfl, rfl, ⟨[], by simp⟩⟩
  | cons x t ih =>
    intro acc
    obtain ⟨e1, e2, e3, e4, _, _, _, _⟩ := dispatchStep_char now env acc x
    obtain ⟨f1, f2, f3, ftl, f4⟩ := ih (dispatchStep now env acc x)
    rw [List.foldl_cons]
    refine ⟨f1.trans e3, f2.trans e4, ?_, ?_⟩
    · rw [f3, e1, updateReminder_ids]
      exact dispatchedRow_id now _ _ _
    · refine ⟨(if notifPersisted (acc.1.userOf x.user_id) (env x.scheduled_reminder_id)
          then [mkNotif acc.1.nextNotifId (reminderNotifData acc.1 x)] else []) ++ ftl, ?_⟩
      rw [f4, e2, List.append_assoc]

theorem dispatchFold_untouched (now : Int) (env : Nat → RowEnv) :
    ∀ (L : List ScheduledReminder) (acc : DB × DispatchResults) (j : Nat),
      (∀ x ∈ L, x.scheduled_reminder_id ≠ j) →
      findById (L.foldl (dispatchStep now env) acc).1.reminders j
        = findById acc.1.reminders j := by
  intro L
  induction L with
  | nil => intro acc j _; rfl
  | cons x t ih =>
    intro acc j hall
    rw [List.foldl_cons,
      ih (dispatchStep now env acc x) j (fun y hy => hall y (List.mem_cons_of_mem x hy))]
    obtain ⟨e1, _, _, _, _, _, _, _⟩ := dispatchStep_char now env acc x
    unfold findById at *
    rw [e1]
    exact findById_update_ne acc.1.reminders x.scheduled_reminder_id j _
      (dispatchedRow_id now _ _ _) (fun he => hall x (List.mem_cons_self x t) he.symm)

theorem dispatchFold_counts (now : Int) (env : Nat → RowEnv) (db : DB) :
    ∀ (L : List ScheduledReminder) (acc : DB × DispatchResults),
      acc.1.userOf = db.userOf →
      (L.foldl (dispatchStep now env) acc).2.processed = acc.2.processed
      ∧ (L.foldl (dispatchStep now env) acc).2.sent = acc.2.sent
          + L.countP (fun x => decide (rowOutcome (db.userOf x.user_id)
              (env x.scheduled_reminder_id) = .sent))
      ∧ (L.foldl (dispatchStep now env) acc).2.skipped = acc.2.skipped
          + L.countP (fun x => decide (rowOutcome (db.userOf x.user_id)
              (env x.scheduled_reminder_id) = .skipped))
      ∧ (L.foldl (dispatchStep now env) acc).2.failed = acc.2.failed
          + L.countP (fun x => decide (rowOutcome (db.userOf x.user_id)
              (env x.scheduled_reminder_id) = .failed)) := by
  intro L
  induction L with
  | nil => intro acc _; simp
  | cons x t ih =>
    intro acc hinv
    obtain ⟨_, _, e3, _, e5, e6, e7, e8⟩ := dispatchStep_char now env acc x
    rw [hinv] at e6 e7 e8
    obtain ⟨f1, f2, f3, f4⟩ := ih (dispatchStep now env acc x) (e3.trans hinv)
    rw [List.foldl_cons]
    refine ⟨f1.trans e5, ?_, ?_, ?_⟩
    · rw [f2, e6, List.countP_cons]
      by_cases ho : rowOutcome (db.userOf x.user_id) (env x.scheduled_reminder_id)
          = Outcome.sent <;> simp [ho]
      omega
    · rw [f3, e7, List.countP_cons]
      by_cases ho : rowOutcome (db.userOf x.user_id) (env x.scheduled_reminder_id)
          = Outcome.skipped <;> simp [ho]
      omega
    · rw [f4, e8, List.countP_cons]
      by_cases ho : rowOutcome (db.userOf x.user_id) (env x.scheduled_reminder_id)
          = Outcome.failed <;> simp [ho]
      omega

theorem dispatchFold_row (now : Int) (env : Nat → RowEnv) (db : DB) :
    ∀ (L : List ScheduledReminder) (acc : DB × DispatchResults) (r : ScheduledReminder),
      r ∈ L → (L.map (·.scheduled_reminder_id)).Nodup →
      acc.1.userOf = db.userOf → acc.1.habitOf = db.habitOf →
      findById acc.1.reminders r.scheduled_reminder_id = some r →
      ∃ nid,
        findById (L.foldl (dispatchStep now env) acc).1.reminders r.scheduled_reminder_id
            = some (dispatchedRow now (db.userOf r.user_id)
                (env r.scheduled_reminder_id) nid r)
        ∧ (notifPersisted (db.userOf r.user_id) (env r.scheduled_reminder_id) = true →
            mkNotif nid (reminderNotifData db r)
              ∈ (L.foldl (dispatchStep now env) acc).1.notifs) := by
  intro L
  induction L with
  | nil => intro acc r hr; exact absurd hr (List.not_mem_nil r)
  | cons x t ih =>
    intro acc r hr hnd huo hho hfind
    rw [List.map_cons, List.nodup_cons] at hnd
    obtain ⟨hnin, hnd'⟩ := hnd
    obtain ⟨e1, e2, e3, e4, _, _, _, _⟩ := dispatchStep_char now env acc x
    rcases List.mem_cons.mp hr with rfl | hrt
    · -- r is processed by this very step
      refine ⟨acc.1.nextNotifId, ?_, ?_⟩
      · rw [List.foldl_cons]
        have hrest : ∀ y ∈ t, y.scheduled_reminder_id ≠ r.scheduled_reminder_id := by
          intro y hy he
          exact hnin (he ▸ List.mem_map_of_mem (·.scheduled_reminder_id) hy)
        rw [dispatchFold_untouched now env t (dispatchStep now env acc r)
            r.scheduled_reminder_id hrest, e1, huo,
          findById_update_hit acc.1.reminders r.scheduled_reminder_id _
            (dispatchedRow_id now _ _ _), hfind]
        rfl
      · intro hpers
        rw [List.foldl_cons]
        obtain ⟨_, _, _, ftl, f4⟩ := dispatchFold_inv now env t (dispatchStep now env acc r)
        rw [f4, e2, huo, reminderNotifData_congr r hho, hpers]
        simp
    · -- r is processed later in the loop
      have hxne : x.scheduled_reminder_id ≠ r.scheduled_reminder_id := by
        intro he
        exact hnin (he ▸ List.mem_map_of_mem (·.scheduled_reminder_id) hrt)
      rw [List.foldl_cons]
      refine ih (dispatchStep now env acc x) r hrt hnd' (e3.trans huo) (e4.trans hho) ?_
      rw [e1,
        findById_update_ne acc.1.reminders x.scheduled_reminder_id
          r.scheduled_reminder_id _ (dispatchedRow_id now _ _ _)
          (fun he => hxne he.symm)]
      exact hfind

theorem outcome_partition (g : ScheduledReminder → Outcome) :
    ∀ L : List ScheduledReminder,
      L.countP (fun x => decide (g x = .sent))
        + L.countP (fun x => decide (g x = .skipped))
        + L.countP (fun x => decide (g x = .failed)) = L.length := by
  intro L
  induction L with
  | nil => rfl
  | cons x t ih =>
    rw [List.countP_cons, List.countP_cons, List.countP_cons, List.length_cons]
    cases hg : g x
    all_goals simp [hg]
    all_goals omega

theorem processReminders_ids (db : DB) (now : Int) (env : Nat → RowEnv) :
    (processReminders db now env).1.reminders.map (·.scheduled_reminder_id)
      = db.reminders.map (·.scheduled_reminder_id) := by
  unfold processReminders
  exact (dispatchFold_inv now env (dueReminders db now) (db, ⟨_, 0, 0, 0⟩)).2.2.1

/-- A row that already has `is_sent = true` is not selected by the due query,
so a dispatch run leaves it exactly as it was. -/
theorem processReminders_sent_untouched (db : DB) (now : Int) (env : Nat → RowEnv)
    (hnd : (db.reminders.map (·.scheduled_reminder_id)).Nodup)
    (r : ScheduledReminder) (hr : r ∈ db.reminders) (hs : r.is_sent = true) :
    findById (processReminders db now env).1.reminders r.scheduled_reminder_id
      = some r := by
  unfold processReminders
  have hall : ∀ x ∈ dueReminders db now,
      x.scheduled_reminder_id ≠ r.scheduled_reminder_id := by
    intro x hx he
    have hxmem : x ∈ db.reminders := List.mem_of_mem_filter hx
    have hdue : dueP now x = true := List.of_mem_filter hx
    have hxr : x = r := List.inj_on_of_nodup_map hnd hxmem hr he
    rw [hxr] at hdue
    simp [dueP, hs] at hdue
  rw [dispatchFold_untouched now env _ _ _ hall]
  exact findById_of_nodup db.reminders hnd r hr

theorem dispatchedRow_is_sent (now : Int) (u : User) (e : RowEnv) (nid : Nat)
    (x : ScheduledReminder) (ho : rowOutcome u e ≠ .failed) :
    (dispatchedRow now u e nid x).is_sent = true := by
  obtain ⟨ct, su, ce, s2, cn, se⟩ := e
  unfold rowOutcome at ho
  unfold dispatchedRow
  cases h1 : (!u.prefersNotifications || u.onVacation) <;>
    simp only [h1] at ho ⊢ <;>
    cases su <;> cases ce <;> cases ct <;> cases s2 <;> cases cn <;> cases se <;>
      simp_all [markSkipped, markSent, markFailed]

theorem dispatchedRow_skip1 (now : Int) (u : User) (e : RowEnv) (nid : Nat)
    (h1 : (!u.prefersNotifications || u.onVacation) = true)
    (h2 : e.skipUpdErr = none) :
    dispatchedRow now u e nid = markSkipped now "User preferences or status" := by
  unfold dispatchedRow
  simp [h1, h2]

theorem dispatchedRow_skip2 (now : Int) (u : User) (e : RowEnv) (nid : Nat)
    (h1 : (!u.prefersNotifications || u.onVacation) = false)
    (h2 : e.complErr = none) (h3 : e.completedToday = true)
    (h4 : e.skipUpd2Err = none) :
    dispatchedRow now u e nid = markSkipped now "Already completed" := by
  unfold dispatchedRow
  simp [h1, h2, h3, h4]

theorem dispatchedRow_sentEq (now : Int) (u : User) (e : RowEnv) (nid : Nat)
    (h1 : (!u.prefersNotifications || u.onVacation) = false)
    (h2 : e.complErr = none) (h3 : e.completedToday = false)
    (h4 : e.cnEnv = .ok) (h5 : e.sentUpdErr = none) :
    dispatchedRow now u e nid = markSent now nid := by
  unfold dispatchedRow
  simp [h1, h2, h3, h4, h5]

theorem notifPersisted_of_sent (u : User) (e : RowEnv)
    (h1 : (!u.prefersNotifications || u.onVacation) = false)
    (h2 : e.complErr = none) (h3 : e.completedToday = false)
    (h4 : e.cnEnv = .ok) :
    notifPersisted u e = true := by
  unfold notifPersisted
  simp [h1, h2, h3, h4]

theorem dispatchedRow_failedEq (now : Int) (u : User) (e : RowEnv) (nid : Nat)
    (m : String) (hm : dispatchErr u e = some m) :
    dispatchedRow now u e nid = markFailed m := by
  obtain ⟨ct, su, ce, s2, cn, se⟩ := e
  unfold dispatchErr at hm
  unfold dispatchedRow
  cases h1 : (!u.prefersNotifications || u.onVacation) <;>
    simp only [h1] at hm ⊢ <;>
    cases su <;> cases ce <;> cases ct <;> cases s2 <;> cases cn <;> cases se <;>
      simp_all

/-- **C2.** One dispatch run: the due set is `scheduled_time <= now`,
`is_sent = false`, `is_prepared = true`; `processed` equals its size and equals
`sent + skipped + failed`; and for every due row, in source order: (i) owner
opted out or on vacation → the row is marked SKIPPED with reason 'User
preferences or status'; (ii) otherwise, habit already completed today → marked
SKIPPED with reason 'Already completed' (the `sent` counter is untouched by
the count identity); (iii) otherwise a notification row is persisted with push
fan-out and the row is marked SENT with its id; (iv) an error at any of the
row's await points marks the row FAILED with that error's message, and the
remaining rows are still processed (the per-row conclusions hold for every due
row regardless of the other rows' environments). -/
theorem processReminders_correct (db : DB) (now : Int) (env : Nat → RowEnv)
    (hnd : (db.reminders.map (·.scheduled_reminder_id)).Nodup) :
    (processReminders db now env).2.processed = (dueReminders db now).length
    ∧ (processReminders db now env).2.processed
        = (processReminders db now env).2.sent
          + (processReminders db now env).2.skipped
          + (processReminders db now env).2.failed
    ∧ ∀ r ∈ dueReminders db now,
        ((!(db.userOf r.user_id).prefersNotifications
            || (db.userOf r.user_id).onVacation) = true →
          (env r.scheduled_reminder_id).skipUpdErr = none →
          findById (processReminders db now env).1.reminders r.scheduled_reminder_id
            = some (markSkipped now "User preferences or status" r))
        ∧ ((!(db.userOf r.user_id).prefersNotifications
            || (db.userOf r.user_id).onVacation) = false →
          (env r.scheduled_reminder_id).complErr = none →
          (env r.scheduled_reminder_id).completedToday = true →
          (env r.scheduled_reminder_id).skipUpd2Err = none →
          findById (processReminders db now env).1.reminders r.scheduled_reminder_id
            = some (markSkipped now "Already completed" r))
        ∧ ((!(db.userOf r.user_id).prefersNotifications
            || (db.userOf r.user_id).onVacation) = false →
          (env r.scheduled_reminder_id).complErr = none →
          (env r.scheduled_reminder_id).completedToday = false →
          (env r.scheduled_reminder_id).cnEnv = .ok →
          (env r.scheduled_reminder_id).sentUpdErr = none →
          ∃ nid,
            findById (processReminders db now env).1.reminders r.scheduled_reminder_id
              = some (markSent now nid r)
            ∧ mkNotif nid (reminderNotifData db r)
                ∈ (processReminders db now env).1.notifs)
        ∧ (∀ m,
          dispatchErr (db.userOf r.user_id) (env r.scheduled_reminder_id) = some m →
          findById (processReminders db now env).1.reminders r.scheduled_reminder_id
            = some (markFailed m r)) := by
  have hcounts := dispatchFold_counts now env db (dueReminders db now)
    (db, ⟨(dueReminders db now).length, 0, 0, 0⟩) rfl
  have hdnd : ((dueReminders db now).map (·.scheduled_reminder_id)).Nodup :=
    List.Nodup.sublist
      (List.Sublist.map (fun x : ScheduledReminder => x.scheduled_reminder_id)
        (List.filter_sublist db.reminders)) hnd
  refine ⟨hcounts.1, ?_, ?_⟩
  · obtain ⟨h1, h2, h3, h4⟩ := hcounts
    dsimp only at h1 h2 h3 h4
    have hpart := outcome_partition
      (fun x => rowOutcome (db.userOf x.user_id) (env x.scheduled_reminder_id))
      (dueReminders db now)
    have hP : (processReminders db now env).2
        = (List.foldl (dispatchStep now env)
            (db, ⟨(dueReminders db now).length, 0, 0, 0⟩) (dueReminders db now)).2 := rfl
    rw [hP]
    omega
  · intro r hr
    have hbase : findById db.reminders r.scheduled_reminder_id = some r :=
      findById_of_nodup db.reminders hnd r (List.mem_of_mem_filter hr)
    obtain ⟨nid, hrow, hnot⟩ := dispatchFold_row now env db (dueReminders db now)
      (db, ⟨(dueReminders db now).length, 0, 0, 0⟩) r hr hdnd rfl rfl hbase
    have hrun : findById (processReminders db now env).1.reminders
        r.scheduled_reminder_id
        = some (dispatchedRow now (db.userOf r.user_id)
            (env r.scheduled_reminder_id) nid r) := hrow
    refine ⟨?_, ?_, ?_, ?_⟩
    · intro h1 h2
      rw [hrun, dispatchedRow_skip1 now _ _ nid h1 h2]
    · intro h1 h2 h3 h4
      rw [hrun, dispatchedRow_skip2 now _ _ nid h1 h2 h3 h4]
    · intro h1 h2 h3 h4 h5
      refine ⟨nid, ?_, ?_⟩
      · rw [hrun, dispatchedRow_sentEq now _ _ nid h1 h2 h3 h4 h5]
      · exact hnot (notifPersisted_of_sent _ _ h1 h2 h3 h4)
    · intro m hm
      rw [hrun, dispatchedRow_failedEq now _ _ nid m hm]

def c2User : User := ⟨1, "lee", true, false, 3, 0⟩

def c2Rem : ScheduledReminder :=
  ⟨1, 1, 1, 50, "DAILY", "Time for your habit!", false, true, none, none, none, none⟩

/-- Fixture for the C2 witness: one due reminder whose habit is already
completed today. -/
def c2DB : DB :=
  ⟨[c2User], fun _ => c2User, fun _ => ⟨1, 1, "Run", true⟩, [], [],
    [c2Rem], [], [], 0, 0⟩

def c2Env : Nat → RowEnv := fun _ => ⟨true, none, none, none, .ok, none⟩

theorem processReminders_correct_witness :
    (processReminders c2DB 100 c2Env).2.processed
        = (processReminders c2DB 100 c2Env).2.sent
          + (processReminders c2DB 100 c2Env).2.skipped
          + (processReminders c2DB 100 c2Env).2.failed
    ∧ findById (processReminders c2DB 100 c2Env).1.reminders 1
        = some (markSkipped 100 "Already completed" c2Rem) := by
  have h := processReminders_correct c2DB 100 c2Env (by decide)
  refine ⟨h.2.1, ?_⟩
  have h2 := (h.2.2 c2Rem (by decide)).2.1 (by decide) rfl rfl rfl
  exact h2

/-- **C1 (amended).** SENT and SKIPPED are terminal: a dispatch run never
touches a row whose `is_sent` is already true, and the SENT/SKIPPED updates
set `is_sent = true`, so a row whose run outcome was not FAILED is left
unchanged by any later dispatch run.  (A FAILED row, by contrast, keeps
`is_sent = false` — the FAILED update writes only `send_status` and
`failure_reason` — so it is selected and re-processed by the next run; see
`processReminders_failed_retried`.) -/
theorem processReminders_terminal (db : DB) (now now2 : Int)
    (env env2 : Nat → RowEnv)
    (hnd : (db.reminders.map (·.scheduled_reminder_id)).Nodup) :
    (∀ r ∈ db.reminders, r.is_sent = true →
      findById (processReminders db now env).1.reminders r.scheduled_reminder_id
        = some r)
    ∧ (∀ r ∈ dueReminders db now,
        rowOutcome (db.userOf r.user_id) (env r.scheduled_reminder_id) ≠ .failed →
        findById (processReminders (processReminders db now env).1 now2 env2).1.reminders
            r.scheduled_reminder_id
          = findById (processReminders db now env).1.reminders
              r.scheduled_reminder_id) := by
  constructor
  · intro r hr hs
    exact processReminders_sent_untouched db now env hnd r hr hs
  · intro r hr ho
    have hdnd : ((dueReminders db now).map (·.scheduled_reminder_id)).Nodup :=
      List.Nodup.sublist
        (List.Sublist.map (fun x : ScheduledReminder => x.scheduled_reminder_id)
          (List.filter_sublist db.reminders)) hnd
    have hbase : findById db.reminders r.scheduled_reminder_id = some r :=
      findById_of_nodup db.reminders hnd r (List.mem_of_mem_filter hr)
    obtain ⟨nid, hrow, -⟩ := dispatchFold_row now env db (dueReminders db now)
      (db, ⟨(dueReminders db now).length, 0, 0, 0⟩) r hr hdnd rfl rfl hbase
    have hrun : findById (processReminders db now env).1.reminders
        r.scheduled_reminder_id
        = some (dispatchedRow now (db.userOf r.user_id)
            (env r.scheduled_reminder_id) nid r) := hrow
    have hnd1 : ((processReminders db now env).1.reminders.map
        (·.scheduled_reminder_id)).Nodup := by
      rw [processReminders_ids]
      exact hnd
    have hmem : dispatchedRow now (db.userOf r.user_id)
        (env r.scheduled_reminder_id) nid r ∈ (processReminders db now env).1.reminders :=
      List.mem_of_find?_eq_some hrun
    have hsent : (dispatchedRow now (db.userOf r.user_id)
        (env r.scheduled_reminder_id) nid r).is_sent = true :=
      dispatchedRow_is_sent now _ _ nid r ho
    have h2 := processReminders_sent_untouched (processReminders db now env).1 now2
      env2 hnd1 _ hmem hsent
    rw [dispatchedRow_id] at h2
    rw [h2, hrun]

def c1User : User := ⟨1, "sam", true, false, 3, 0⟩

def c1Rem : ScheduledReminder :=
  ⟨1, 1, 1, 50, "DAILY", "Do your habit!", false, true, none, none, none, none⟩

/-- Fixture for the C1 counterexample: one due reminder; the first run's
completion query throws, the second run succeeds. -/
def c1DB : DB :=
  ⟨[c1User], fun _ => c1User, fun _ => ⟨1, 1, "Run", true⟩, [], [],
    [c1Rem], [], [], 0, 0⟩

def c1EnvFail : Nat → RowEnv := fun _ => ⟨false, none, some "db timeout", none, .ok, none⟩

def c1EnvOk : Nat → RowEnv := fun _ => ⟨false, none, none, none, .ok, none⟩

def c1DB1 : DB := (processReminders c1DB 100 c1EnvFail).1

/-- **C1 counterexample.** A dispatch run marks the reminder FAILED (leaving
`is_sent = false`); the next dispatch run selects the same row again and
re-processes it, overwriting the terminal FAILED state with SENT — so a FAILED
reminder is *not* terminal and *is* automatically retried by a later run,
contradicting the claim as stated. -/
theorem processReminders_failed_retried :
    (findById c1DB1.reminders 1).map (·.send_status) = some (some "FAILED")
    ∧ (findById c1DB1.reminders 1).map (·.is_sent) = some false
    ∧ (findById (processReminders c1DB1 200 c1EnvOk).1.reminders 1).map (·.send_status)
        = some (some "SENT") := by
  refine ⟨by decide, by decide, by decide⟩

theorem processReminders_terminal_witness :
    findById (processReminders (processReminders c2DB 100 c2Env).1 200 c1EnvOk).1.reminders 1
      = findById (processReminders c2DB 100 c2Env).1.reminders 1 := by
  have h := (processReminders_terminal c2DB 100 200 c2Env c1EnvOk (by decide)).2
    c2Rem (by decide) (by decide)
  exact h

end HabitPulse
